import Mathlib

set_option maxHeartbeats 1000000

/-!
Shallow embedding of the scrcpy demuxer (src/app/src/demuxer.c).

The socket is modelled as the list of bytes it will deliver before the remote
side closes the connection (`List Nat`, each byte reduced mod 256 as in the
`uint8_t` buffers of the C code).  `net_recv_all(sock, buf, n)` delivers
`min n remaining` bytes, so a short read corresponds to the stream holding
fewer than `n` bytes.  Sinks are modelled by their observable behaviour
(`open`/`push` success functions); a run produces the ordered list of
open/push/close/callback events, which is what every claim is about.
-/

/-- Big-endian accumulation of a byte list, as in the read helpers of
util/binary.h: each byte contributes as an 8-bit digit, most significant
first. -/
def bytesToNatBE (l : List Nat) : Nat :=
  l.foldl (fun acc b => acc * 256 + b % 256) 0

/-- sc_read32be (util/binary.h): big-endian 32-bit read of 4 bytes. -/
def sc_read32be (data : List Nat) : Nat :=
  bytesToNatBE (data.take 4)

/-- sc_read64be (util/binary.h): big-endian 64-bit read of 8 bytes. -/
def sc_read64be (data : List Nat) : Nat :=
  bytesToNatBE (data.take 8)

/-- Big-endian serialization of `n` into `k` bytes (the server side of the
wire format of spec section 4.2; used to build concrete streams). -/
def natToBytesBE : Nat → Nat → List Nat
  | 0, _ => []
  | k+1, n => natToBytesBE k (n / 256) ++ [n % 256]

/-- SC_PACKET_HEADER_SIZE (demuxer.c line 14). -/
def SC_PACKET_HEADER_SIZE : Nat := 12

/-- SC_PACKET_FLAG_CONFIG (demuxer.c line 16): bit 63 of pts_flags. -/
def SC_PACKET_FLAG_CONFIG : Nat := 1 <<< 63

/-- SC_PACKET_FLAG_KEY_FRAME (demuxer.c line 17): bit 62 of pts_flags. -/
def SC_PACKET_FLAG_KEY_FRAME : Nat := 1 <<< 62

/-- SC_PACKET_PTS_MASK (demuxer.c line 19): low 62 bits of pts_flags. -/
def SC_PACKET_PTS_MASK : Nat := SC_PACKET_FLAG_KEY_FRAME - 1

/-- The config-flag test `pts_flags & SC_PACKET_FLAG_CONFIG` of
demuxer.c line 98. -/
def sc_packet_is_config (pts_flags : Nat) : Bool :=
  pts_flags &&& SC_PACKET_FLAG_CONFIG != 0

/-- The key-frame-flag test `pts_flags & SC_PACKET_FLAG_KEY_FRAME` of
demuxer.c line 104. -/
def sc_packet_is_key_frame (pts_flags : Nat) : Bool :=
  pts_flags &&& SC_PACKET_FLAG_KEY_FRAME != 0

/-- The pts decoding of demuxer.c lines 98-102: a config packet gets
AV_NOPTS_VALUE (modelled as `none`), otherwise the masked 62-bit value. -/
def sc_packet_decode_pts (pts_flags : Nat) : Option Nat :=
  if sc_packet_is_config pts_flags then none
  else some (pts_flags &&& SC_PACKET_PTS_MASK)

/-- An AVPacket as the demuxer uses it: pts/dts (`none` = AV_NOPTS_VALUE),
the AV_PKT_FLAG_KEY bit, and the owned payload bytes. -/
structure AVPacket where
  pts : Option Nat
  dts : Option Nat
  keyFrame : Bool
  data : List Nat
deriving DecidableEq, Repr

/-- Outcome of sc_demuxer_recv_packet: `ok` carries the packet and the rest of
the stream; `fail` is any path returning `false` (short header read, allocation
failure, short payload read); `assertFail` is the `assert(len)` of line 85
firing on a zero length field (debug-build abort). -/
inductive RecvPacketResult where
  | ok (packet : AVPacket) (rest : List Nat)
  | fail
  | assertFail
deriving DecidableEq, Repr

/-- sc_demuxer_recv_codec_id (demuxer.c lines 42-52): read 4 bytes, big-endian
decode; a short read returns failure (`none`). -/
def sc_demuxer_recv_codec_id (stream : List Nat) : Option (Nat × List Nat) :=
  if stream.length < 4 then none
  else some (sc_read32be stream, stream.drop 4)

/-- sc_demuxer_recv_packet (demuxer.c lines 54-110): read the 12-byte header
(short read fails), decode pts_flags and len, `assert(len)`, allocate the
payload buffer (`allocOk` is the av_new_packet outcome), read `len` payload
bytes (short read fails), then fill pts/flags/dts. -/
def sc_demuxer_recv_packet (allocOk : Bool) (stream : List Nat) :
    RecvPacketResult :=
  if stream.length < SC_PACKET_HEADER_SIZE then .fail
  else
    let header := stream.take SC_PACKET_HEADER_SIZE
    let pts_flags := sc_read64be header
    let len := sc_read32be (header.drop 8)
    if len = 0 then .assertFail
    else if allocOk = false then .fail
    else
      let rest := stream.drop SC_PACKET_HEADER_SIZE
      if rest.length < len then .fail
      else
        let pts := sc_packet_decode_pts pts_flags
        .ok { pts := pts
              dts := pts
              keyFrame := sc_packet_is_key_frame pts_flags
              data := rest.take len }
          (rest.drop len)

/-- The wire codec tags of demuxer.c lines 23-26. -/
def SC_CODEC_ID_H264 : Nat := 0x68323634

/-- "h265" in ASCII. -/
def SC_CODEC_ID_H265 : Nat := 0x68323635

/-- "av1" in ASCII (3 significant bytes). -/
def SC_CODEC_ID_AV1 : Nat := 0x00617631

/-- "opus" in ASCII. -/
def SC_CODEC_ID_OPUS : Nat := 0x6f707573

/-- The AVCodecID values the demuxer can produce. -/
inductive AVCodecID where
  | H264
  | HEVC
  | AV1
  | OPUS
  | NONE
deriving DecidableEq, Repr

/-- sc_demuxer_to_avcodec_id (demuxer.c lines 21-40). -/
def sc_demuxer_to_avcodec_id (codec_id : Nat) : AVCodecID :=
  if codec_id = SC_CODEC_ID_H264 then .H264
  else if codec_id = SC_CODEC_ID_H265 then .HEVC
  else if codec_id = SC_CODEC_ID_AV1 then .AV1
  else if codec_id = SC_CODEC_ID_OPUS then .OPUS
  else .NONE

/-- Media type of an AVCodec (FFmpeg). -/
inductive AVMediaType where
  | VIDEO
  | Audio
deriving DecidableEq, Repr

/-- The part of an FFmpeg AVCodec the demuxer looks at: its id and media
type.  `avcodec_find_decoder` is external to the repository and appears as an
environment function returning `Option AVCodec`. -/
structure AVCodec where
  id : AVCodecID
  type : AVMediaType
deriving DecidableEq, Repr

/-- Modelled from the spec: the PacketMerger state (packet_merger.c is not
under src/).  Spec section 4.3: at most one pending config accumulation. -/
structure sc_packet_merger where
  config : Option (List Nat)
deriving DecidableEq, Repr

/-- Modelled from the spec: sc_packet_merger_init — the merger starts idle
(no pending buffer). -/
def sc_packet_merger_init : sc_packet_merger := { config := none }

/-- Modelled from the spec: sc_packet_merger_merge (packet_merger.c is not
under src/).  Spec section 4.3 transition rules: a config packet (pts =
AV_NOPTS_VALUE) has its payload appended to the pending buffer; a media packet
with a pending buffer gets the buffer prepended to its payload and the buffer
cleared; a media packet with the merger idle passes through unchanged.  The
demuxer (src) then pushes whatever packet the call leaves behind. -/
def sc_packet_merger_merge (merger : sc_packet_merger) (packet : AVPacket) :
    sc_packet_merger × AVPacket :=
  if packet.pts = none then
    ({ config := some ((merger.config.getD []) ++ packet.data) }, packet)
  else
    match merger.config with
    | some cfg => ({ config := none }, { packet with data := cfg ++ packet.data })
    | none => (merger, packet)

/-- A packet sink, modelled by its observable behaviour: whether `open`
succeeds, and whether `push` succeeds on a given packet.  `close` always
succeeds (it returns void in the C interface). -/
structure Sink where
  openOk : Bool
  pushOk : AVPacket → Bool

/-- Observable events of a demuxer session, in order: sink opens, packet
pushes (the sink at the given registry index received the push call with the
given packet), sink closes, and the completion callback with its eos flag. -/
inductive Event where
  | openSink (i : Nat)
  | closeSink (i : Nat)
  | push (i : Nat) (packet : AVPacket)
  | onEnded (eos : Bool)
deriving DecidableEq, Repr

/-- sc_demuxer_close_first_sinks (demuxer.c lines 135-141): close sinks
`count-1` down to `0`, in that order. -/
def sc_demuxer_close_first_sinks (count : Nat) : List Event :=
  (List.range count).reverse.map Event.closeSink

/-- sc_demuxer_close_sinks (demuxer.c lines 143-146). -/
def sc_demuxer_close_sinks (sinks : List Sink) : List Event :=
  sc_demuxer_close_first_sinks sinks.length

/-- Worker for sc_demuxer_open_sinks: open the remaining sinks, carrying the
absolute registry index; on the first failure, close the already-opened sinks
(indices below the failing one) in reverse order and report failure. -/
def sc_demuxer_open_sinks_go : List Sink → Nat → List Event × Bool
  | [], _ => ([], true)
  | sink :: rest, i =>
    if sink.openOk then
      let r := sc_demuxer_open_sinks_go rest (i+1)
      (Event.openSink i :: r.1, r.2)
    else (sc_demuxer_close_first_sinks i, false)

/-- sc_demuxer_open_sinks (demuxer.c lines 148-159). -/
def sc_demuxer_open_sinks (sinks : List Sink) : List Event × Bool :=
  sc_demuxer_open_sinks_go sinks 0

/-- Worker for push_packet_to_sinks: push to the remaining sinks in order,
stopping at (and including) the first failing push call. -/
def push_packet_to_sinks_go : List Sink → Nat → AVPacket → List Event × Bool
  | [], _, _ => ([], true)
  | sink :: rest, i, packet =>
    if sink.pushOk packet then
      let r := push_packet_to_sinks_go rest (i+1) packet
      (Event.push i packet :: r.1, r.2)
    else ([Event.push i packet], false)

/-- push_packet_to_sinks (demuxer.c lines 112-122); sc_demuxer_push_packet
(lines 124-133) only adds logging on failure, so it is the same function. -/
def push_packet_to_sinks (sinks : List Sink) (packet : AVPacket) :
    List Event × Bool :=
  push_packet_to_sinks_go sinks 0 packet

/-- Outcome of the read loop: `done` with its events and the final eos flag,
or `aborted` when `assert(len)` fired (the process dies, nothing after the
loop runs). -/
inductive LoopResult where
  | done (events : List Event) (eos : Bool)
  | aborted (events : List Event)
deriving DecidableEq, Repr

/-- The events of a loop result. -/
def LoopResult.events : LoopResult → List Event
  | .done evs _ => evs
  | .aborted evs => evs

/-- The read loop of run_demuxer (demuxer.c lines 207-230), with explicit
structural fuel (each iteration consumes at least 13 stream bytes, so
`stream.length + 1` fuel is always enough; `demuxer_loop` below supplies it).
Per iteration: receive a packet (failure ends the loop with eos = true),
merge it when `mustMerge` (the merge-failure branch of line 218 is the
merger's own allocation failure, which this model does not exercise), push
the resulting packet to the sinks (failure ends the loop with eos = false). -/
def demuxer_loop_fuel :
    Nat → List Sink → Bool → sc_packet_merger → List Nat → List Bool →
    LoopResult
  | 0, _, _, _, _, _ => .done [] true
  | fuel+1, sinks, mustMerge, merger, stream, allocs =>
    match sc_demuxer_recv_packet (allocs.headD true) stream with
    | .assertFail => .aborted []
    | .fail => .done [] true
    | .ok packet rest =>
      let step := if mustMerge then sc_packet_merger_merge merger packet
                  else (merger, packet)
      let pr := push_packet_to_sinks sinks step.2
      if pr.2 then
        match demuxer_loop_fuel fuel sinks mustMerge step.1 rest allocs.tail with
        | .done evs eos => .done (pr.1 ++ evs) eos
        | .aborted evs => .aborted (pr.1 ++ evs)
      else .done pr.1 false

/-- The read loop of run_demuxer with its fuel instantiated. -/
def demuxer_loop (sinks : List Sink) (mustMerge : Bool)
    (merger : sc_packet_merger) (stream : List Nat) (allocs : List Bool) :
    LoopResult :=
  demuxer_loop_fuel (stream.length + 1) sinks mustMerge merger stream allocs

/-- Environment of one demuxer session: the socket bytes, the external
avcodec_find_decoder function, the sink registry (registration order), the
av_packet_alloc outcome, and the av_new_packet outcomes consumed one per
received packet (exhausted list means success). -/
structure DemuxerEnv where
  stream : List Nat
  findDecoder : AVCodecID → Option AVCodec
  sinks : List Sink
  packetAllocOk : Bool
  payloadAllocs : List Bool

/-- Result of a session: the ordered event list, `aborted` when the process
died on a failed assert. -/
inductive RunResult where
  | finished (events : List Event)
  | aborted (events : List Event)
deriving DecidableEq, Repr

/-- The events of a run result. -/
def RunResult.events : RunResult → List Event
  | .finished evs => evs
  | .aborted evs => evs

/-- run_demuxer (demuxer.c lines 161-245): negotiate the codec (short tag read
means eos = true; unknown tag or missing decoder means eos = false), open the
sinks (failure means eos = false), merge only for video codecs, allocate the
loop packet (failure closes the sinks with eos = false), run the read loop,
then close all sinks and fire the completion callback exactly once. -/
def run_demuxer (env : DemuxerEnv) : RunResult :=
  match sc_demuxer_recv_codec_id env.stream with
  | none => .finished [Event.onEnded true]
  | some (raw, rest) =>
    let codec_id := sc_demuxer_to_avcodec_id raw
    if codec_id = .NONE then .finished [Event.onEnded false]
    else
      match env.findDecoder codec_id with
      | none => .finished [Event.onEnded false]
      | some codec =>
        let opened := sc_demuxer_open_sinks env.sinks
        if opened.2 = false then .finished (opened.1 ++ [Event.onEnded false])
        else
          let mustMerge := codec.type = AVMediaType.VIDEO
          if env.packetAllocOk = false then
            .finished (opened.1 ++ sc_demuxer_close_sinks env.sinks ++
              [Event.onEnded false])
          else
            match demuxer_loop env.sinks mustMerge sc_packet_merger_init rest
                env.payloadAllocs with
            | .done loopEvs eos =>
              .finished (opened.1 ++ loopEvs ++
                sc_demuxer_close_sinks env.sinks ++ [Event.onEnded eos])
            | .aborted loopEvs => .aborted (opened.1 ++ loopEvs)

/-- The packets delivered by push events, in order. -/
def pushedPackets (evs : List Event) : List AVPacket :=
  evs.filterMap fun e =>
    match e with
    | .push _ p => some p
    | _ => none

/-- Registry indices of the open events, in order. -/
def openIdxs (evs : List Event) : List Nat :=
  evs.filterMap fun e =>
    match e with
    | .openSink i => some i
    | _ => none

/-- Registry indices of the close events, in order. -/
def closeIdxs (evs : List Event) : List Nat :=
  evs.filterMap fun e =>
    match e with
    | .closeSink i => some i
    | _ => none

/-- The eos flags delivered to the completion callback, in order. -/
def endedFlags (evs : List Event) : List Bool :=
  evs.filterMap fun e =>
    match e with
    | .onEnded eos => some eos
    | _ => none

/-- Modelled from the spec: the server-side pts_flags encoder (the server is
not under src/).  Spec section 4.2 bit layout: bit 63 = config flag, bit 62 =
key-frame flag, bits 0-61 = timestamp. -/
def encodePtsFlags (timestamp : Nat) (isConfig isKeyFrame : Bool) : Nat :=
  (if isConfig then SC_PACKET_FLAG_CONFIG else 0) +
    (if isKeyFrame then SC_PACKET_FLAG_KEY_FRAME else 0) +
    timestamp % (2 ^ 62)

/-- Serialization of one wire packet frame (spec section 4.2): 8-byte
big-endian pts_flags, 4-byte big-endian length, then the payload. -/
def serializePacket (pts_flags : Nat) (payload : List Nat) : List Nat :=
  natToBytesBE 8 pts_flags ++ natToBytesBE 4 payload.length ++ payload

/-- The open events of a fully successful sink-open pass over `n` sinks. -/
def openAllEvents (n : Nat) : List Event :=
  (List.range n).map Event.openSink

/-- The push events of a fully successful push of `packet` to `n` sinks. -/
def pushAllEvents (n : Nat) (packet : AVPacket) : List Event :=
  (List.range n).map fun i => Event.push i packet

/-- A sink whose open and push calls always succeed. -/
def oneGoodSink : Sink :=
  { openOk := true, pushOk := fun _ => true }

/-- A sink whose open call fails. -/
def failOpenSink : Sink :=
  { openOk := false, pushOk := fun _ => true }

/-- A sink whose open succeeds and whose push calls always fail. -/
def failPushSink : Sink :=
  { openOk := true, pushOk := fun _ => false }

/-- An avcodec_find_decoder in which only the H.264 video decoder exists. -/
def findH264 : AVCodecID → Option AVCodec :=
  fun c => if c = .H264 then some { id := .H264, type := .VIDEO } else none

/-- An avcodec_find_decoder in which only the Opus audio decoder exists. -/
def findOpus : AVCodecID → Option AVCodec :=
  fun c => if c = .OPUS then some { id := .OPUS, type := .Audio } else none

/-- A session whose socket closes before sending anything. -/
def emptyStreamEnv : DemuxerEnv :=
  { stream := [], findDecoder := findH264, sinks := [oneGoodSink],
    packetAllocOk := true, payloadAllocs := [] }

/-- A session that receives the unknown codec tag 0. -/
def badTagEnv : DemuxerEnv :=
  { stream := natToBytesBE 4 0, findDecoder := findH264,
    sinks := [oneGoodSink], packetAllocOk := true, payloadAllocs := [] }

/-- A session with a valid tag but no decoder available for it. -/
def noDecoderEnv : DemuxerEnv :=
  { stream := natToBytesBE 4 SC_CODEC_ID_H264, findDecoder := fun _ => none,
    sinks := [oneGoodSink], packetAllocOk := true, payloadAllocs := [] }

/-- A session with a valid tag whose socket closes mid-header. -/
def midHeaderEnv : DemuxerEnv :=
  { stream := natToBytesBE 4 SC_CODEC_ID_H264 ++ [0], findDecoder := findH264,
    sinks := [oneGoodSink], packetAllocOk := true, payloadAllocs := [] }

/-- A session that receives a header whose length field is zero. -/
def zeroLenEnv : DemuxerEnv :=
  { stream := natToBytesBE 4 SC_CODEC_ID_H264 ++
      (natToBytesBE 8 0 ++ natToBytesBE 4 0 ++ []),
    findDecoder := findH264, sinks := [oneGoodSink],
    packetAllocOk := true, payloadAllocs := [] }

/-- A session whose first payload-buffer allocation fails. -/
def allocFailEnv : DemuxerEnv :=
  { stream := natToBytesBE 4 SC_CODEC_ID_H264 ++
      (natToBytesBE 8 0 ++ natToBytesBE 4 1 ++ [7]),
    findDecoder := findH264, sinks := [oneGoodSink],
    packetAllocOk := true, payloadAllocs := [false] }

/-- A video session delivering config [1], config [2], then media [3] at
timestamp 5, followed by end-of-stream. -/
def mergeSampleEnv : DemuxerEnv :=
  { stream := natToBytesBE 4 SC_CODEC_ID_H264 ++
      (serializePacket SC_PACKET_FLAG_CONFIG [1] ++
        (serializePacket SC_PACKET_FLAG_CONFIG [2] ++ serializePacket 5 [3])),
    findDecoder := findH264, sinks := [oneGoodSink],
    packetAllocOk := true, payloadAllocs := [] }

/-- An audio (Opus) session delivering the same three wire packets. -/
def audioSampleEnv : DemuxerEnv :=
  { stream := natToBytesBE 4 SC_CODEC_ID_OPUS ++
      (serializePacket SC_PACKET_FLAG_CONFIG [1] ++
        (serializePacket SC_PACKET_FLAG_CONFIG [2] ++ serializePacket 5 [3])),
    findDecoder := findOpus, sinks := [oneGoodSink],
    packetAllocOk := true, payloadAllocs := [] }

/-- A video session delivering a single media packet while the second
registered sink fails open. -/
def openFailEnv : DemuxerEnv :=
  { stream := natToBytesBE 4 SC_CODEC_ID_H264, findDecoder := findH264,
    sinks := [oneGoodSink, failOpenSink], packetAllocOk := true,
    payloadAllocs := [] }

/-- A video session delivering a single media packet while the second
registered sink fails push. -/
def pushFailEnv : DemuxerEnv :=
  { stream := natToBytesBE 4 SC_CODEC_ID_H264 ++ serializePacket 7 [9],
    findDecoder := findH264, sinks := [oneGoodSink, failPushSink],
    packetAllocOk := true, payloadAllocs := [] }

/-- A video session delivering one media packet then end-of-stream. -/
def mediaOnlyEnv : DemuxerEnv :=
  { stream := natToBytesBE 4 SC_CODEC_ID_H264 ++ serializePacket 7 [9],
    findDecoder := findH264, sinks := [oneGoodSink],
    packetAllocOk := true, payloadAllocs := [] }

/-- A video session delivering one config packet then end-of-stream. -/
def configOnlyEnv : DemuxerEnv :=
  { stream := natToBytesBE 4 SC_CODEC_ID_H264 ++
      serializePacket SC_PACKET_FLAG_CONFIG [1],
    findDecoder := findH264, sinks := [oneGoodSink],
    packetAllocOk := true, payloadAllocs := [] }

/-! ### Byte-level lemmas -/

theorem natToBytesBE_length (k n : Nat) : (natToBytesBE k n).length = k := by
  induction k generalizing n with
  | zero => rfl
  | succ k ih => simp [natToBytesBE, ih]

theorem bytesToNatBE_append_single (xs : List Nat) (b : Nat) :
    bytesToNatBE (xs ++ [b]) = bytesToNatBE xs * 256 + b % 256 := by
  simp [bytesToNatBE, List.foldl_append]

theorem bytesToNatBE_natToBytesBE (k n : Nat) :
    bytesToNatBE (natToBytesBE k n) = n % 256 ^ k := by
  induction k generalizing n with
  | zero => simp [natToBytesBE, bytesToNatBE, Nat.mod_one]
  | succ k ih =>
    rw [natToBytesBE, bytesToNatBE_append_single, ih]
    have hp : (256 : Nat) ^ (k + 1) = 256 * 256 ^ k := by ring
    rw [hp, Nat.mod_mul]
    have hmm : n % 256 % 256 = n % 256 := Nat.mod_mod_of_dvd n dvd_rfl
    rw [hmm]
    omega

theorem sc_read64be_append (pf : Nat) (rest : List Nat) (h : pf < 2 ^ 64) :
    sc_read64be (natToBytesBE 8 pf ++ rest) = pf := by
  rw [sc_read64be, List.take_left' (natToBytesBE_length 8 pf),
    bytesToNatBE_natToBytesBE]
  have hp : (256 : Nat) ^ 8 = 2 ^ 64 := by norm_num
  rw [hp, Nat.mod_eq_of_lt h]

theorem sc_read32be_append (n : Nat) (rest : List Nat) (h : n < 2 ^ 32) :
    sc_read32be (natToBytesBE 4 n ++ rest) = n := by
  rw [sc_read32be, List.take_left' (natToBytesBE_length 4 n),
    bytesToNatBE_natToBytesBE]
  have hp : (256 : Nat) ^ 4 = 2 ^ 32 := by norm_num
  rw [hp, Nat.mod_eq_of_lt h]

theorem sc_read32be_exact (n : Nat) (h : n < 2 ^ 32) :
    sc_read32be (natToBytesBE 4 n) = n := by
  have := sc_read32be_append n [] h
  simpa using this

/-! ### Codec negotiation lemmas -/

theorem recv_codec_id_short {stream : List Nat} (h : stream.length < 4) :
    sc_demuxer_recv_codec_id stream = none := by
  simp [sc_demuxer_recv_codec_id, h]

theorem recv_codec_id_serialized (t : Nat) (rest : List Nat) (h : t < 2 ^ 32) :
    sc_demuxer_recv_codec_id (natToBytesBE 4 t ++ rest) = some (t, rest) := by
  have h4 := natToBytesBE_length 4 t
  unfold sc_demuxer_recv_codec_id
  rw [if_neg (by simp [h4])]
  rw [sc_read32be, List.take_left' h4, bytesToNatBE_natToBytesBE,
    List.drop_left' h4]
  have hp : (256 : Nat) ^ 4 = 2 ^ 32 := by norm_num
  rw [hp, Nat.mod_eq_of_lt h]

/-! ### Packet receive lemmas -/

theorem recv_packet_short {allocOk : Bool} {stream : List Nat}
    (h : stream.length < 12) :
    sc_demuxer_recv_packet allocOk stream = .fail := by
  simp [sc_demuxer_recv_packet, SC_PACKET_HEADER_SIZE, h]

theorem recv_packet_serialized (pf : Nat) (payload rest : List Nat)
    (hpf : pf < 2 ^ 64) (hne : payload ≠ []) (hlen : payload.length < 2 ^ 32) :
    sc_demuxer_recv_packet true (serializePacket pf payload ++ rest) =
      .ok { pts := sc_packet_decode_pts pf
            dts := sc_packet_decode_pts pf
            keyFrame := sc_packet_is_key_frame pf
            data := payload } rest := by
  have h8 := natToBytesBE_length 8 pf
  have h4 := natToBytesBE_length 4 payload.length
  have hassoc : serializePacket pf payload ++ rest =
      (natToBytesBE 8 pf ++ natToBytesBE 4 payload.length) ++
        (payload ++ rest) := by
    simp [serializePacket]
  have hh :
      (natToBytesBE 8 pf ++ natToBytesBE 4 payload.length).length = 12 := by
    simp [h8, h4]
  rw [hassoc]
  unfold sc_demuxer_recv_packet
  rw [if_neg (by simp only [List.length_append, h8, h4,
    SC_PACKET_HEADER_SIZE]; omega)]
  simp only [SC_PACKET_HEADER_SIZE, List.take_left' hh, List.drop_left' hh,
    List.drop_left' h8]
  rw [sc_read64be, List.take_left' h8, bytesToNatBE_natToBytesBE]
  have hp8 : (256 : Nat) ^ 8 = 2 ^ 64 := by norm_num
  rw [hp8, Nat.mod_eq_of_lt hpf]
  rw [sc_read32be_exact payload.length hlen]
  rw [if_neg (by simpa using hne)]
  rw [if_neg (by simp)]
  rw [if_neg (by simp)]
  rw [List.take_left, List.drop_left]

theorem recv_packet_zero_len (allocOk : Bool) (pf : Nat) (junk : List Nat) :
    sc_demuxer_recv_packet allocOk
      (natToBytesBE 8 pf ++ natToBytesBE 4 0 ++ junk) = .assertFail := by
  have h8 := natToBytesBE_length 8 pf
  have h4 := natToBytesBE_length 4 0
  have hassoc : natToBytesBE 8 pf ++ natToBytesBE 4 0 ++ junk =
      (natToBytesBE 8 pf ++ natToBytesBE 4 0) ++ junk := by
    simp
  have hh : (natToBytesBE 8 pf ++ natToBytesBE 4 0).length = 12 := by
    simp [h8, h4]
  rw [hassoc]
  unfold sc_demuxer_recv_packet
  rw [if_neg (by simp only [List.length_append, h8, h4,
    SC_PACKET_HEADER_SIZE]; omega)]
  simp only [SC_PACKET_HEADER_SIZE, List.take_left' hh, List.drop_left' h8]
  rw [sc_read32be_exact 0 (by norm_num)]
  simp

theorem recv_packet_alloc_fail (pf plen : Nat) (junk : List Nat)
    (hlen : plen ≠ 0) (hlen2 : plen < 2 ^ 32) :
    sc_demuxer_recv_packet false
      (natToBytesBE 8 pf ++ natToBytesBE 4 plen ++ junk) = .fail := by
  have h8 := natToBytesBE_length 8 pf
  have h4 := natToBytesBE_length 4 plen
  have hassoc : natToBytesBE 8 pf ++ natToBytesBE 4 plen ++ junk =
      (natToBytesBE 8 pf ++ natToBytesBE 4 plen) ++ junk := by
    simp
  have hh : (natToBytesBE 8 pf ++ natToBytesBE 4 plen).length = 12 := by
    simp [h8, h4]
  rw [hassoc]
  unfold sc_demuxer_recv_packet
  rw [if_neg (by simp only [List.length_append, h8, h4,
    SC_PACKET_HEADER_SIZE]; omega)]
  simp only [SC_PACKET_HEADER_SIZE, List.take_left' hh, List.drop_left' h8]
  rw [sc_read32be_exact plen hlen2]
  rw [if_neg hlen]
  simp

theorem recv_packet_ok_length {allocOk : Bool} {stream : List Nat}
    {p : AVPacket} {r : List Nat}
    (h : sc_demuxer_recv_packet allocOk stream = .ok p r) :
    r.length + 13 ≤ stream.length := by
  unfold sc_demuxer_recv_packet at h
  by_cases h12 : stream.length < SC_PACKET_HEADER_SIZE
  · rw [if_pos h12] at h
    exact absurd h (by simp)
  · rw [if_neg h12] at h
    simp only [SC_PACKET_HEADER_SIZE] at h h12
    by_cases hz : sc_read32be ((stream.take 12).drop 8) = 0
    · rw [if_pos hz] at h
      exact absurd h (by simp)
    · rw [if_neg hz] at h
      by_cases ha : allocOk = false
      · rw [if_pos ha] at h
        exact absurd h (by simp)
      · rw [if_neg ha] at h
        by_cases hs : (stream.drop 12).length <
            sc_read32be ((stream.take 12).drop 8)
        · rw [if_pos hs] at h
          exact absurd h (by simp)
        · rw [if_neg hs] at h
          have hr : r = (stream.drop 12).drop
              (sc_read32be ((stream.take 12).drop 8)) := by
            cases h
            rfl
          subst hr
          simp only [List.length_drop] at hs ⊢
          omega

/-! ### pts_flags bit lemmas -/

theorem flag_config_eq : SC_PACKET_FLAG_CONFIG = 2 ^ 63 := by
  simp [SC_PACKET_FLAG_CONFIG, Nat.shiftLeft_eq]

theorem flag_key_eq : SC_PACKET_FLAG_KEY_FRAME = 2 ^ 62 := by
  simp [SC_PACKET_FLAG_KEY_FRAME, Nat.shiftLeft_eq]

theorem pts_mask_eq : SC_PACKET_PTS_MASK = 2 ^ 62 - 1 := by
  rw [SC_PACKET_PTS_MASK, flag_key_eq]

theorem is_config_eq_testBit (pf : Nat) :
    sc_packet_is_config pf = pf.testBit 63 := by
  rw [sc_packet_is_config, flag_config_eq, Nat.and_two_pow]
  cases h : pf.testBit 63 <;> simp

theorem is_key_frame_eq_testBit (pf : Nat) :
    sc_packet_is_key_frame pf = pf.testBit 62 := by
  rw [sc_packet_is_key_frame, flag_key_eq, Nat.and_two_pow]
  cases h : pf.testBit 62 <;> simp

theorem decode_encode (ts : Nat) (h : ts < 2 ^ 62) (c k : Bool) :
    sc_packet_is_config (encodePtsFlags ts c k) = c ∧
    sc_packet_is_key_frame (encodePtsFlags ts c k) = k ∧
    encodePtsFlags ts c k &&& SC_PACKET_PTS_MASK = ts := by
  have hts : ts % 2 ^ 62 = ts := Nat.mod_eq_of_lt h
  rw [is_config_eq_testBit, is_key_frame_eq_testBit, pts_mask_eq,
    Nat.and_pow_two_sub_one_eq_mod]
  rw [Nat.testBit_to_div_mod, Nat.testBit_to_div_mod]
  unfold encodePtsFlags
  rw [flag_config_eq, flag_key_eq, hts]
  have e62 : (2 : Nat) ^ 62 = 4611686018427387904 := by norm_num
  have e63 : (2 : Nat) ^ 63 = 9223372036854775808 := by norm_num
  rw [e62] at h
  rw [e62, e63]
  cases c <;> cases k <;>
    simp only [Bool.false_eq_true, Bool.true_eq_false, if_true, if_false,
      ite_true, ite_false, decide_eq_true_eq, decide_eq_false_iff_not] <;>
    refine ⟨by omega, by omega, by omega⟩

/-- The pts decoding of a small (media) pts_flags word: no flags set. -/
theorem decode_pts_small (ts : Nat) (h : ts < 2 ^ 62) :
    sc_packet_decode_pts ts = some ts ∧
    sc_packet_is_key_frame ts = false ∧
    sc_packet_is_config ts = false := by
  have hc : sc_packet_is_config ts = false := by
    rw [is_config_eq_testBit]
    exact Nat.testBit_lt_two_pow (by
      calc ts < 2 ^ 62 := h
      _ ≤ 2 ^ 63 := Nat.pow_le_pow_right (by norm_num) (by norm_num))
  have hk : sc_packet_is_key_frame ts = false := by
    rw [is_key_frame_eq_testBit]
    exact Nat.testBit_lt_two_pow h
  refine ⟨?_, hk, hc⟩
  rw [sc_packet_decode_pts, hc, pts_mask_eq, Nat.and_pow_two_sub_one_eq_mod,
    Nat.mod_eq_of_lt h]
  simp

/-- The pts decoding of the bare config flag word. -/
theorem decode_pts_config_flag :
    sc_packet_decode_pts SC_PACKET_FLAG_CONFIG = none ∧
    sc_packet_is_key_frame SC_PACKET_FLAG_CONFIG = false := by
  constructor
  · rw [sc_packet_decode_pts, is_config_eq_testBit, flag_config_eq,
      Nat.testBit_two_pow_self]
    simp
  · rw [is_key_frame_eq_testBit, flag_config_eq, Nat.testBit_two_pow]
    simp

/-! ### Event extraction lemmas -/

theorem openIdxs_append (a b : List Event) :
    openIdxs (a ++ b) = openIdxs a ++ openIdxs b := by
  simp [openIdxs]

theorem closeIdxs_append (a b : List Event) :
    closeIdxs (a ++ b) = closeIdxs a ++ closeIdxs b := by
  simp [closeIdxs]

theorem endedFlags_append (a b : List Event) :
    endedFlags (a ++ b) = endedFlags a ++ endedFlags b := by
  simp [endedFlags]

theorem pushedPackets_append (a b : List Event) :
    pushedPackets (a ++ b) = pushedPackets a ++ pushedPackets b := by
  simp [pushedPackets]

theorem openIdxs_openAll (n : Nat) : openIdxs (openAllEvents n) = List.range n := by
  simp [openIdxs, openAllEvents, List.filterMap_map]
  exact List.filterMap_some _

theorem closeIdxs_close_first (n : Nat) :
    closeIdxs (sc_demuxer_close_first_sinks n) = (List.range n).reverse := by
  simp [closeIdxs, sc_demuxer_close_first_sinks, List.filterMap_map]
  exact List.filterMap_some _

theorem openIdxs_close_first (n : Nat) :
    openIdxs (sc_demuxer_close_first_sinks n) = [] := by
  simp [openIdxs, sc_demuxer_close_first_sinks, List.filterMap_map]

theorem closeIdxs_openAll (n : Nat) : closeIdxs (openAllEvents n) = [] := by
  simp [closeIdxs, openAllEvents, List.filterMap_map]

theorem endedFlags_openAll (n : Nat) : endedFlags (openAllEvents n) = [] := by
  simp [endedFlags, openAllEvents, List.filterMap_map]

theorem endedFlags_close_first (n : Nat) :
    endedFlags (sc_demuxer_close_first_sinks n) = [] := by
  simp [endedFlags, sc_demuxer_close_first_sinks, List.filterMap_map]

theorem pushedPackets_openAll (n : Nat) :
    pushedPackets (openAllEvents n) = [] := by
  simp [pushedPackets, openAllEvents, List.filterMap_map]

theorem pushedPackets_close_first (n : Nat) :
    pushedPackets (sc_demuxer_close_first_sinks n) = [] := by
  simp [pushedPackets, sc_demuxer_close_first_sinks, List.filterMap_map]

theorem pushedPackets_pushAll (n : Nat) (p : AVPacket) :
    pushedPackets (pushAllEvents n p) = List.replicate n p := by
  simp [pushedPackets, pushAllEvents, List.filterMap_map]
  induction n with
  | zero => rfl
  | succ n ih =>
    rw [List.range_succ, List.replicate_succ']
    simp [ih]

theorem pushedPackets_onEnded (b : Bool) :
    pushedPackets [Event.onEnded b] = [] := rfl

theorem endedFlags_onEnded (b : Bool) :
    endedFlags [Event.onEnded b] = [b] := rfl

theorem openIdxs_onEnded (b : Bool) :
    openIdxs [Event.onEnded b] = [] := rfl

theorem closeIdxs_onEnded (b : Bool) :
    closeIdxs [Event.onEnded b] = [] := rfl

/-! ### Sink open fan-out lemmas -/

theorem open_sinks_go_all (l : List Sink) (k : Nat)
    (h : ∀ s ∈ l, s.openOk = true) :
    sc_demuxer_open_sinks_go l k =
      ((List.range' k l.length).map Event.openSink, true) := by
  induction l generalizing k with
  | nil => simp [sc_demuxer_open_sinks_go]
  | cons s rest ih =>
    have hs : s.openOk = true := h s (by simp)
    have hr : ∀ x ∈ rest, x.openOk = true := fun x hx => h x (by simp [hx])
    simp [sc_demuxer_open_sinks_go, hs, ih (k+1) hr, List.range'_succ]

theorem open_sinks_all (sinks : List Sink) (h : ∀ s ∈ sinks, s.openOk = true) :
    sc_demuxer_open_sinks sinks = (openAllEvents sinks.length, true) := by
  rw [sc_demuxer_open_sinks, open_sinks_go_all sinks 0 h, openAllEvents,
    List.range_eq_range']

theorem open_sinks_go_fail (l : List Sink) (k i : Nat) (hi : i < l.length)
    (hpre : ∀ j (hj : j < l.length), j < i → (l.get ⟨j, hj⟩).openOk = true)
    (hfail : (l.get ⟨i, hi⟩).openOk = false) :
    sc_demuxer_open_sinks_go l k =
      ((List.range' k i).map Event.openSink ++
        sc_demuxer_close_first_sinks (k + i), false) := by
  induction l generalizing k i with
  | nil => simp at hi
  | cons s rest ih =>
    cases i with
    | zero =>
      have hs : s.openOk = false := hfail
      simp [sc_demuxer_open_sinks_go, hs]
    | succ i =>
      have hs : s.openOk = true := hpre 0 (by simp) (by omega)
      have hi' : i < rest.length := by simpa using hi
      have hpre' : ∀ j (hj : j < rest.length), j < i →
          (rest.get ⟨j, hj⟩).openOk = true := by
        intro j hj hji
        have := hpre (j+1) (by simpa using Nat.succ_lt_succ hj) (by omega)
        simpa using this
      have hfail' : (rest.get ⟨i, hi'⟩).openOk = false := by
        simpa using hfail
      have hk : k + 1 + i = k + (i + 1) := by omega
      simp [sc_demuxer_open_sinks_go, hs, ih (k+1) i hi' hpre' hfail',
        List.range'_succ, hk]

theorem open_sinks_fail (sinks : List Sink) (i : Nat) (hi : i < sinks.length)
    (hpre : ∀ j (hj : j < sinks.length), j < i →
      (sinks.get ⟨j, hj⟩).openOk = true)
    (hfail : (sinks.get ⟨i, hi⟩).openOk = false) :
    sc_demuxer_open_sinks sinks =
      ((List.range i).map Event.openSink ++ sc_demuxer_close_first_sinks i,
        false) := by
  rw [sc_demuxer_open_sinks, open_sinks_go_fail sinks 0 i hi hpre hfail,
    List.range_eq_range']
  simp

theorem open_sinks_go_cases (l : List Sink) (k : Nat) :
    sc_demuxer_open_sinks_go l k =
      ((List.range' k l.length).map Event.openSink, true) ∨
    ∃ i, i ≤ l.length ∧ sc_demuxer_open_sinks_go l k =
      ((List.range' k i).map Event.openSink ++
        sc_demuxer_close_first_sinks (k + i), false) := by
  induction l generalizing k with
  | nil =>
    left
    simp [sc_demuxer_open_sinks_go]
  | cons s rest ih =>
    by_cases hs : s.openOk = true
    · rcases ih (k+1) with hall | ⟨i, hle, heq⟩
      · left
        simp [sc_demuxer_open_sinks_go, hs, hall, List.range'_succ]
      · right
        refine ⟨i+1, by simp; omega, ?_⟩
        have hk : k + 1 + i = k + (i + 1) := by omega
        simp [sc_demuxer_open_sinks_go, hs, heq, List.range'_succ, hk]
    · right
      have hs' : s.openOk = false := by simpa using hs
      refine ⟨0, by simp, ?_⟩
      simp [sc_demuxer_open_sinks_go, hs']

/-! ### Sink push fan-out lemmas -/

theorem push_go_all (l : List Sink) (k : Nat) (p : AVPacket)
    (h : ∀ s ∈ l, s.pushOk p = true) :
    push_packet_to_sinks_go l k p =
      ((List.range' k l.length).map (fun i => Event.push i p), true) := by
  induction l generalizing k with
  | nil => simp [push_packet_to_sinks_go]
  | cons s rest ih =>
    have hs : s.pushOk p = true := h s (by simp)
    have hr : ∀ x ∈ rest, x.pushOk p = true := fun x hx => h x (by simp [hx])
    simp [push_packet_to_sinks_go, hs, ih (k+1) hr, List.range'_succ]

theorem push_all (sinks : List Sink) (p : AVPacket)
    (h : ∀ s ∈ sinks, s.pushOk p = true) :
    push_packet_to_sinks sinks p = (pushAllEvents sinks.length p, true) := by
  rw [push_packet_to_sinks, push_go_all sinks 0 p h, pushAllEvents,
    List.range_eq_range']

theorem push_go_fail (l : List Sink) (k : Nat) (p : AVPacket) (i : Nat)
    (hi : i < l.length)
    (hpre : ∀ j (hj : j < l.length), j < i → (l.get ⟨j, hj⟩).pushOk p = true)
    (hfail : (l.get ⟨i, hi⟩).pushOk p = false) :
    push_packet_to_sinks_go l k p =
      ((List.range' k (i+1)).map (fun j => Event.push j p), false) := by
  induction l generalizing k i with
  | nil => simp at hi
  | cons s rest ih =>
    cases i with
    | zero =>
      have hs : s.pushOk p = false := hfail
      simp [push_packet_to_sinks_go, hs, List.range'_succ]
    | succ i =>
      have hs : s.pushOk p = true := hpre 0 (by simp) (by omega)
      have hi' : i < rest.length := by simpa using hi
      have hpre' : ∀ j (hj : j < rest.length), j < i →
          (rest.get ⟨j, hj⟩).pushOk p = true := by
        intro j hj hji
        have := hpre (j+1) (by simpa using Nat.succ_lt_succ hj) (by omega)
        simpa using this
      have hfail' : (rest.get ⟨i, hi'⟩).pushOk p = false := by
        simpa using hfail
      simp [push_packet_to_sinks_go, hs, ih (k+1) i hi' hpre' hfail',
        List.range'_succ]

theorem push_fail (sinks : List Sink) (p : AVPacket) (i : Nat)
    (hi : i < sinks.length)
    (hpre : ∀ j (hj : j < sinks.length), j < i →
      (sinks.get ⟨j, hj⟩).pushOk p = true)
    (hfail : (sinks.get ⟨i, hi⟩).pushOk p = false) :
    push_packet_to_sinks sinks p =
      ((List.range (i+1)).map (fun j => Event.push j p), false) := by
  rw [push_packet_to_sinks, push_go_fail sinks 0 p i hi hpre hfail,
    List.range_eq_range']

theorem push_go_events (l : List Sink) (k : Nat) (p : AVPacket) :
    openIdxs (push_packet_to_sinks_go l k p).1 = [] ∧
    closeIdxs (push_packet_to_sinks_go l k p).1 = [] ∧
    endedFlags (push_packet_to_sinks_go l k p).1 = [] := by
  induction l generalizing k with
  | nil => simp [push_packet_to_sinks_go, openIdxs, closeIdxs, endedFlags]
  | cons s rest ih =>
    by_cases hs : s.pushOk p = true
    · obtain ⟨h1, h2, h3⟩ := ih (k+1)
      simp [push_packet_to_sinks_go, hs, openIdxs, closeIdxs,
        endedFlags] at h1 h2 h3 ⊢
      exact ⟨h1, h2, h3⟩
    · have hs' : s.pushOk p = false := by simpa using hs
      simp [push_packet_to_sinks_go, hs', openIdxs, closeIdxs, endedFlags]

/-! ### Read loop lemmas -/

theorem demuxer_loop_fuel_canon (n : Nat) :
    ∀ (stream : List Nat), stream.length ≤ n → ∀ (f : Nat), stream.length < f →
    ∀ (sinks : List Sink) (mm : Bool) (mg : sc_packet_merger) (al : List Bool),
    demuxer_loop_fuel f sinks mm mg stream al =
      demuxer_loop sinks mm mg stream al := by
  induction n with
  | zero =>
    intro stream hle f hf sinks mm mg al
    obtain ⟨g, rfl⟩ : ∃ g, f = g + 1 := ⟨f - 1, by omega⟩
    have hs : stream.length = 0 := by omega
    rw [demuxer_loop, hs]
    rw [demuxer_loop_fuel, demuxer_loop_fuel]
    have hrecv : sc_demuxer_recv_packet (al.headD true) stream = .fail :=
      recv_packet_short (by omega)
    rw [hrecv]
  | succ n ih =>
    intro stream hle f hf sinks mm mg al
    obtain ⟨g, rfl⟩ : ∃ g, f = g + 1 := ⟨f - 1, by omega⟩
    rw [demuxer_loop]
    rw [demuxer_loop_fuel, demuxer_loop_fuel]
    cases hrecv : sc_demuxer_recv_packet (al.headD true) stream with
    | assertFail => rfl
    | fail => rfl
    | ok p r =>
      have hr := recv_packet_ok_length hrecv
      have h1 : demuxer_loop_fuel g sinks mm
          (if mm then sc_packet_merger_merge mg p else (mg, p)).1 r al.tail =
          demuxer_loop sinks mm
          (if mm then sc_packet_merger_merge mg p else (mg, p)).1 r al.tail := by
        exact ih r (by omega) g (by omega) sinks mm _ al.tail
      have h2 : demuxer_loop_fuel stream.length sinks mm
          (if mm then sc_packet_merger_merge mg p else (mg, p)).1 r al.tail =
          demuxer_loop sinks mm
          (if mm then sc_packet_merger_merge mg p else (mg, p)).1 r al.tail := by
        exact ih r (by omega) stream.length (by omega) sinks mm _ al.tail
      simp only [h1, h2]

theorem demuxer_loop_fail_eq {sinks : List Sink} {mm : Bool}
    {mg : sc_packet_merger} {stream : List Nat} {al : List Bool}
    (h : sc_demuxer_recv_packet (al.headD true) stream = .fail) :
    demuxer_loop sinks mm mg stream al = .done [] true := by
  rw [demuxer_loop, demuxer_loop_fuel, h]

theorem demuxer_loop_assert_eq {sinks : List Sink} {mm : Bool}
    {mg : sc_packet_merger} {stream : List Nat} {al : List Bool}
    (h : sc_demuxer_recv_packet (al.headD true) stream = .assertFail) :
    demuxer_loop sinks mm mg stream al = .aborted [] := by
  rw [demuxer_loop, demuxer_loop_fuel, h]

theorem demuxer_loop_ok_eq {sinks : List Sink} {mm : Bool}
    {mg mg' : sc_packet_merger} {stream : List Nat} {al : List Bool}
    {p q : AVPacket} {r : List Nat}
    (h : sc_demuxer_recv_packet (al.headD true) stream = .ok p r)
    (hmerge : (if mm then sc_packet_merger_merge mg p else (mg, p)) =
      (mg', q)) :
    demuxer_loop sinks mm mg stream al =
      (if (push_packet_to_sinks sinks q).2 then
        match demuxer_loop sinks mm mg' r al.tail with
        | .done evs eos => .done ((push_packet_to_sinks sinks q).1 ++ evs) eos
        | .aborted evs => .aborted ((push_packet_to_sinks sinks q).1 ++ evs)
      else .done (push_packet_to_sinks sinks q).1 false) := by
  have hr := recv_packet_ok_length h
  rw [demuxer_loop, demuxer_loop_fuel, h]
  simp only [hmerge]
  rw [demuxer_loop_fuel_canon r.length r (le_refl _) stream.length (by omega)
    sinks mm mg' al.tail]

theorem demuxer_loop_events (n : Nat) :
    ∀ (stream : List Nat), stream.length ≤ n →
    ∀ (sinks : List Sink) (mm : Bool) (mg : sc_packet_merger) (al : List Bool),
    openIdxs (demuxer_loop sinks mm mg stream al).events = [] ∧
    closeIdxs (demuxer_loop sinks mm mg stream al).events = [] ∧
    endedFlags (demuxer_loop sinks mm mg stream al).events = [] := by
  induction n with
  | zero =>
    intro stream hle sinks mm mg al
    have hrecv : sc_demuxer_recv_packet (al.headD true) stream = .fail :=
      recv_packet_short (by omega)
    rw [demuxer_loop_fail_eq hrecv]
    simp [LoopResult.events, openIdxs, closeIdxs, endedFlags]
  | succ n ih =>
    intro stream hle sinks mm mg al
    cases hrecv : sc_demuxer_recv_packet (al.headD true) stream with
    | fail =>
      rw [demuxer_loop_fail_eq hrecv]
      simp [LoopResult.events, openIdxs, closeIdxs, endedFlags]
    | assertFail =>
      rw [demuxer_loop_assert_eq hrecv]
      simp [LoopResult.events, openIdxs, closeIdxs, endedFlags]
    | ok p r =>
      have hr := recv_packet_ok_length hrecv
      rcases hm : (if mm then sc_packet_merger_merge mg p else (mg, p)) with
        ⟨mg', q⟩
      rw [demuxer_loop_ok_eq hrecv hm]
      obtain ⟨hp1, hp2, hp3⟩ := push_go_events sinks 0 q
      rw [show push_packet_to_sinks_go sinks 0 q =
        push_packet_to_sinks sinks q from rfl] at hp1 hp2 hp3
      obtain ⟨hl1, hl2, hl3⟩ := ih r (by omega) sinks mm mg' al.tail
      by_cases hpr : (push_packet_to_sinks sinks q).2 = true
      · rw [if_pos hpr]
        cases hloop : demuxer_loop sinks mm mg' r al.tail with
        | done evs eos =>
          rw [hloop] at hl1 hl2 hl3
          simp [LoopResult.events, openIdxs_append, closeIdxs_append,
            endedFlags_append, hp1, hp2, hp3] at hl1 hl2 hl3 ⊢
          exact ⟨hl1, hl2, hl3⟩
        | aborted evs =>
          rw [hloop] at hl1 hl2 hl3
          simp [LoopResult.events, openIdxs_append, closeIdxs_append,
            endedFlags_append, hp1, hp2, hp3] at hl1 hl2 hl3 ⊢
          exact ⟨hl1, hl2, hl3⟩
      · rw [if_neg hpr]
        simp [LoopResult.events, hp1, hp2, hp3]

/-! ### run_demuxer path lemmas -/

theorem run_demuxer_no_tag {env : DemuxerEnv} (h : env.stream.length < 4) :
    run_demuxer env = .finished [Event.onEnded true] := by
  rw [run_demuxer, recv_codec_id_short h]

theorem run_demuxer_bad_codec {env : DemuxerEnv} {raw : Nat} {rest : List Nat}
    (h : sc_demuxer_recv_codec_id env.stream = some (raw, rest))
    (hid : sc_demuxer_to_avcodec_id raw = .NONE) :
    run_demuxer env = .finished [Event.onEnded false] := by
  rw [run_demuxer, h]
  simp [hid]

theorem run_demuxer_no_decoder {env : DemuxerEnv} {raw : Nat} {rest : List Nat}
    (h : sc_demuxer_recv_codec_id env.stream = some (raw, rest))
    (hid : sc_demuxer_to_avcodec_id raw ≠ .NONE)
    (hfind : env.findDecoder (sc_demuxer_to_avcodec_id raw) = none) :
    run_demuxer env = .finished [Event.onEnded false] := by
  rw [run_demuxer, h]
  simp [hid, hfind]

theorem run_demuxer_open_fail {env : DemuxerEnv} {raw : Nat} {rest : List Nat}
    {codec : AVCodec}
    (h : sc_demuxer_recv_codec_id env.stream = some (raw, rest))
    (hid : sc_demuxer_to_avcodec_id raw ≠ .NONE)
    (hfind : env.findDecoder (sc_demuxer_to_avcodec_id raw) = some codec)
    (hopen : (sc_demuxer_open_sinks env.sinks).2 = false) :
    run_demuxer env =
      .finished ((sc_demuxer_open_sinks env.sinks).1 ++ [Event.onEnded false]) := by
  rw [run_demuxer, h]
  simp [hid, hfind, hopen]

theorem run_demuxer_alloc_fail {env : DemuxerEnv} {raw : Nat} {rest : List Nat}
    {codec : AVCodec}
    (h : sc_demuxer_recv_codec_id env.stream = some (raw, rest))
    (hid : sc_demuxer_to_avcodec_id raw ≠ .NONE)
    (hfind : env.findDecoder (sc_demuxer_to_avcodec_id raw) = some codec)
    (hopen : (sc_demuxer_open_sinks env.sinks).2 = true)
    (hpk : env.packetAllocOk = false) :
    run_demuxer env =
      .finished ((sc_demuxer_open_sinks env.sinks).1 ++
        sc_demuxer_close_sinks env.sinks ++ [Event.onEnded false]) := by
  rw [run_demuxer, h]
  simp [hid, hfind, hopen, hpk]

theorem run_demuxer_loop_done {env : DemuxerEnv} {raw : Nat} {rest : List Nat}
    {codec : AVCodec} {loopEvs : List Event} {eos : Bool}
    (h : sc_demuxer_recv_codec_id env.stream = some (raw, rest))
    (hid : sc_demuxer_to_avcodec_id raw ≠ .NONE)
    (hfind : env.findDecoder (sc_demuxer_to_avcodec_id raw) = some codec)
    (hopen : (sc_demuxer_open_sinks env.sinks).2 = true)
    (hpk : env.packetAllocOk = true)
    (hloop : demuxer_loop env.sinks (decide (codec.type = AVMediaType.VIDEO))
      sc_packet_merger_init rest env.payloadAllocs = .done loopEvs eos) :
    run_demuxer env =
      .finished ((sc_demuxer_open_sinks env.sinks).1 ++ loopEvs ++
        sc_demuxer_close_sinks env.sinks ++ [Event.onEnded eos]) := by
  rw [run_demuxer, h]
  simp [hid, hfind, hopen, hpk, hloop]

theorem run_demuxer_loop_aborted {env : DemuxerEnv} {raw : Nat}
    {rest : List Nat} {codec : AVCodec} {loopEvs : List Event}
    (h : sc_demuxer_recv_codec_id env.stream = some (raw, rest))
    (hid : sc_demuxer_to_avcodec_id raw ≠ .NONE)
    (hfind : env.findDecoder (sc_demuxer_to_avcodec_id raw) = some codec)
    (hopen : (sc_demuxer_open_sinks env.sinks).2 = true)
    (hpk : env.packetAllocOk = true)
    (hloop : demuxer_loop env.sinks (decide (codec.type = AVMediaType.VIDEO))
      sc_packet_merger_init rest env.payloadAllocs = .aborted loopEvs) :
    run_demuxer env = .aborted ((sc_demuxer_open_sinks env.sinks).1 ++ loopEvs) := by
  rw [run_demuxer, h]
  simp [hid, hfind, hopen, hpk, hloop]

/-! ### Frame-level receive lemmas -/

theorem recv_config_frame (c rest : List Nat) (hne : c ≠ [])
    (hl : c.length < 2 ^ 32) :
    sc_demuxer_recv_packet true
      (serializePacket SC_PACKET_FLAG_CONFIG c ++ rest) =
      .ok { pts := none, dts := none, keyFrame := false, data := c } rest := by
  rw [recv_packet_serialized SC_PACKET_FLAG_CONFIG c rest
    (by rw [flag_config_eq]; norm_num) hne hl]
  rw [decode_pts_config_flag.1, decode_pts_config_flag.2]

theorem recv_media_frame (t : Nat) (m rest : List Nat) (ht : t < 2 ^ 62)
    (hne : m ≠ []) (hl : m.length < 2 ^ 32) :
    sc_demuxer_recv_packet true (serializePacket t m ++ rest) =
      .ok { pts := some t, dts := some t, keyFrame := false, data := m }
        rest := by
  have hd := decode_pts_small t ht
  rw [recv_packet_serialized t m rest (lt_trans ht (by norm_num)) hne hl,
    hd.1, hd.2.1]

/-- Merging is skipped when must_merge_config_packet is false. -/
theorem merge_skip (mg : sc_packet_merger) (p : AVPacket) :
    (if (false : Bool) then sc_packet_merger_merge mg p else (mg, p)) =
      (mg, p) := rfl

/-! ### Claim theorems -/

/-- C2: for every `(timestamp, is_config, is_key_frame)` with the timestamp in
`[0, 2^62)`, encoding into pts_flags (config flag in bit 63, key-frame flag in
bit 62, timestamp in bits 0-61) and decoding with the packet-header decoder of
`sc_demuxer_recv_packet` recovers the key-frame flag, and recovers the
timestamp unless the config flag is set, in which case the decoded timestamp
is the no-timestamp sentinel (`none`, i.e. AV_NOPTS_VALUE); the decoded
is-config bit (pts = sentinel) equals the encoded one. -/
theorem header_roundtrip (ts : Nat) (h : ts < 2 ^ 62) (c k : Bool) :
    sc_packet_decode_pts (encodePtsFlags ts c k) =
      (if c then none else some ts) ∧
    sc_packet_is_key_frame (encodePtsFlags ts c k) = k ∧
    sc_packet_is_config (encodePtsFlags ts c k) = c := by
  obtain ⟨h1, h2, h3⟩ := decode_encode ts h c k
  refine ⟨?_, h2, h1⟩
  rw [sc_packet_decode_pts, h1]
  cases c
  · simp [h3]
  · simp

/-- Witness for C2 at timestamp 5, no config, key frame set. -/
theorem header_roundtrip_witness :
    sc_packet_decode_pts (encodePtsFlags 5 false true) =
      (if false then none else some 5) ∧
    sc_packet_is_key_frame (encodePtsFlags 5 false true) = true ∧
    sc_packet_is_config (encodePtsFlags 5 false true) = false :=
  header_roundtrip 5 (by norm_num) false true

/-- C10: every packet successfully read from the wire has its dts equal to its
pts (demuxer.c line 108), before it is handed to the merger or pushed; in
particular when the wire header carried the config flag, both fields hold the
no-timestamp sentinel. -/
theorem recv_dts_eq_pts {allocOk : Bool} {stream : List Nat} {p : AVPacket}
    {r : List Nat} (h : sc_demuxer_recv_packet allocOk stream = .ok p r) :
    p.dts = p.pts ∧
    (sc_packet_is_config (sc_read64be (stream.take SC_PACKET_HEADER_SIZE)) =
        true → p.pts = none ∧ p.dts = none) := by
  unfold sc_demuxer_recv_packet at h
  by_cases h12 : stream.length < SC_PACKET_HEADER_SIZE
  · rw [if_pos h12] at h
    exact absurd h (by simp)
  · rw [if_neg h12] at h
    by_cases hz : sc_read32be ((stream.take SC_PACKET_HEADER_SIZE).drop 8) = 0
    · rw [if_pos hz] at h
      exact absurd h (by simp)
    · rw [if_neg hz] at h
      by_cases ha : allocOk = false
      · rw [if_pos ha] at h
        exact absurd h (by simp)
      · rw [if_neg ha] at h
        by_cases hs : (stream.drop SC_PACKET_HEADER_SIZE).length <
            sc_read32be ((stream.take SC_PACKET_HEADER_SIZE).drop 8)
        · rw [if_pos hs] at h
          exact absurd h (by simp)
        · rw [if_neg hs] at h
          dsimp only at h
          cases h
          refine ⟨rfl, fun hconf => ?_⟩
          simp [sc_packet_decode_pts, hconf]

/-- Witness for C10 on a concrete one-packet stream. -/
theorem recv_dts_eq_pts_witness :
    (sc_demuxer_recv_packet true (serializePacket 5 [1]) =
      .ok { pts := some 5, dts := some 5, keyFrame := false, data := [1] }
        []) ∧
    AVPacket.dts { pts := some 5, dts := some 5, keyFrame := false, data := [1] } =
      AVPacket.pts { pts := some 5, dts := some 5, keyFrame := false, data := [1] } := by
  refine ⟨by decide, ?_⟩
  exact (@recv_dts_eq_pts true (serializePacket 5 [1])
    { pts := some 5, dts := some 5, keyFrame := false, data := [1] } []
    (by decide)).1

/-- C6: a wire header whose length field is 0 trips `assert(len)`
(demuxer.c line 85): the session dies without pushing anything to any sink —
a zero-length header never produces a pushed packet, in particular never a
zero-payload one. -/
theorem zero_length_header_no_push (env : DemuxerEnv) (raw pf : Nat)
    (junk : List Nat)
    (hstream : env.stream = natToBytesBE 4 raw ++
      (natToBytesBE 8 pf ++ natToBytesBE 4 0 ++ junk))
    (hraw : raw < 2 ^ 32)
    (hid : sc_demuxer_to_avcodec_id raw ≠ .NONE)
    (hfind : ∃ codec, env.findDecoder (sc_demuxer_to_avcodec_id raw) =
      some codec)
    (hopen : ∀ s ∈ env.sinks, s.openOk = true)
    (hpk : env.packetAllocOk = true) :
    run_demuxer env = .aborted (openAllEvents env.sinks.length) ∧
    pushedPackets (run_demuxer env).events = [] := by
  obtain ⟨codec, hfind⟩ := hfind
  have htag : sc_demuxer_recv_codec_id env.stream =
      some (raw, natToBytesBE 8 pf ++ natToBytesBE 4 0 ++ junk) := by
    rw [hstream]
    exact recv_codec_id_serialized raw _ hraw
  have hopen' := open_sinks_all env.sinks hopen
  have hrecv : sc_demuxer_recv_packet (env.payloadAllocs.headD true)
      (natToBytesBE 8 pf ++ natToBytesBE 4 0 ++ junk) = .assertFail :=
    recv_packet_zero_len _ pf junk
  have hloop := @demuxer_loop_assert_eq env.sinks
    (decide (codec.type = AVMediaType.VIDEO)) sc_packet_merger_init
    (natToBytesBE 8 pf ++ natToBytesBE 4 0 ++ junk) env.payloadAllocs hrecv
  have hrun := run_demuxer_loop_aborted htag hid hfind (by rw [hopen']) hpk
    hloop
  rw [hopen'] at hrun
  constructor
  · rw [hrun]
    simp
  · rw [hrun]
    rw [RunResult.events]
    simp [pushedPackets_openAll]

/-- Witness for C6 on a concrete zero-length-header session. -/
theorem zero_length_header_no_push_witness :
    run_demuxer zeroLenEnv = .aborted (openAllEvents zeroLenEnv.sinks.length) ∧
    pushedPackets (run_demuxer zeroLenEnv).events = [] := by
  refine zero_length_header_no_push zeroLenEnv SC_CODEC_ID_H264 0 [] rfl
    (by decide) (by decide) ⟨{ id := .H264, type := .VIDEO }, rfl⟩
    (fun s hs => ?_) rfl
  have hss : s = oneGoodSink := by simpa [zeroLenEnv] using hs
  rw [hss]
  rfl

/-- C3: EOS classification.  A socket closed before delivering the 4-byte tag
ends the session with eos = true; an unrecognized 4-byte tag ends it with
eos = false and no sink is ever opened; a recognized tag with no decoder
available ends it with eos = false and no sink is ever opened; a valid tag
followed by a successful sink open and a socket close mid-header ends it with
eos = true after the sinks are torn down. -/
theorem eos_classification :
    (∀ env : DemuxerEnv, env.stream.length < 4 →
      run_demuxer env = .finished [Event.onEnded true]) ∧
    (∀ (env : DemuxerEnv) (raw : Nat) (rest : List Nat),
      env.stream = natToBytesBE 4 raw ++ rest → raw < 2 ^ 32 →
      sc_demuxer_to_avcodec_id raw = .NONE →
      run_demuxer env = .finished [Event.onEnded false]) ∧
    (∀ (env : DemuxerEnv) (raw : Nat) (rest : List Nat),
      env.stream = natToBytesBE 4 raw ++ rest → raw < 2 ^ 32 →
      sc_demuxer_to_avcodec_id raw ≠ .NONE →
      env.findDecoder (sc_demuxer_to_avcodec_id raw) = none →
      run_demuxer env = .finished [Event.onEnded false]) ∧
    (∀ (env : DemuxerEnv) (raw : Nat) (hdr : List Nat) (codec : AVCodec),
      env.stream = natToBytesBE 4 raw ++ hdr → raw < 2 ^ 32 →
      sc_demuxer_to_avcodec_id raw ≠ .NONE →
      env.findDecoder (sc_demuxer_to_avcodec_id raw) = some codec →
      (∀ s ∈ env.sinks, s.openOk = true) → env.packetAllocOk = true →
      hdr.length < 12 →
      run_demuxer env = .finished (openAllEvents env.sinks.length ++
        sc_demuxer_close_sinks env.sinks ++ [Event.onEnded true])) := by
  refine ⟨?_, ?_, ?_, ?_⟩
  · intro env h
    exact run_demuxer_no_tag h
  · intro env raw rest hstream hraw hid
    have htag : sc_demuxer_recv_codec_id env.stream = some (raw, rest) := by
      rw [hstream]
      exact recv_codec_id_serialized raw rest hraw
    exact run_demuxer_bad_codec htag hid
  · intro env raw rest hstream hraw hid hfind
    have htag : sc_demuxer_recv_codec_id env.stream = some (raw, rest) := by
      rw [hstream]
      exact recv_codec_id_serialized raw rest hraw
    exact run_demuxer_no_decoder htag hid hfind
  · intro env raw hdr codec hstream hraw hid hfind hopen hpk hlen
    have htag : sc_demuxer_recv_codec_id env.stream = some (raw, hdr) := by
      rw [hstream]
      exact recv_codec_id_serialized raw hdr hraw
    have hopen' := open_sinks_all env.sinks hopen
    have hrecv : sc_demuxer_recv_packet (env.payloadAllocs.headD true) hdr =
        .fail := recv_packet_short hlen
    have hloop := @demuxer_loop_fail_eq env.sinks
      (decide (codec.type = AVMediaType.VIDEO)) sc_packet_merger_init hdr
      env.payloadAllocs hrecv
    have hrun := run_demuxer_loop_done htag hid hfind (by rw [hopen']) hpk
      hloop
    rw [hopen'] at hrun
    rw [hrun]
    simp

/-- Witness for C3 on four concrete sessions. -/
theorem eos_classification_witness :
    run_demuxer emptyStreamEnv = .finished [Event.onEnded true] ∧
    run_demuxer badTagEnv = .finished [Event.onEnded false] ∧
    run_demuxer noDecoderEnv = .finished [Event.onEnded false] ∧
    run_demuxer midHeaderEnv = .finished
      (openAllEvents midHeaderEnv.sinks.length ++
        sc_demuxer_close_sinks midHeaderEnv.sinks ++ [Event.onEnded true]) := by
  refine ⟨eos_classification.1 emptyStreamEnv (by decide),
    eos_classification.2.1 badTagEnv 0 [] (by decide) (by decide) (by decide),
    eos_classification.2.2.1 noDecoderEnv SC_CODEC_ID_H264 [] rfl (by decide)
      (by decide) rfl,
    eos_classification.2.2.2 midHeaderEnv SC_CODEC_ID_H264 [0]
      { id := .H264, type := .VIDEO } rfl (by decide) (by decide) rfl
      (fun s hs => ?_) rfl (by decide)⟩
  have hss : s = oneGoodSink := by simpa [midHeaderEnv] using hs
  rw [hss]
  rfl

/-- C4: if opening sink `i` fails, exactly the sinks 0..i-1 that were opened
are closed, in reverse of their opening order, the session start fails
(eos = false), and no packet is ever pushed to any sink of the registry. -/
theorem open_fail_atomicity (env : DemuxerEnv) (raw : Nat) (rest : List Nat)
    (codec : AVCodec) (i : Nat) (hi : i < env.sinks.length)
    (hstream : env.stream = natToBytesBE 4 raw ++ rest) (hraw : raw < 2 ^ 32)
    (hid : sc_demuxer_to_avcodec_id raw ≠ .NONE)
    (hfind : env.findDecoder (sc_demuxer_to_avcodec_id raw) = some codec)
    (hpre : ∀ j (hj : j < env.sinks.length), j < i →
      (env.sinks.get ⟨j, hj⟩).openOk = true)
    (hfail : (env.sinks.get ⟨i, hi⟩).openOk = false) :
    run_demuxer env = .finished (openAllEvents i ++
      sc_demuxer_close_first_sinks i ++ [Event.onEnded false]) ∧
    pushedPackets (run_demuxer env).events = [] := by
  have htag : sc_demuxer_recv_codec_id env.stream = some (raw, rest) := by
    rw [hstream]
    exact recv_codec_id_serialized raw rest hraw
  have hopen := open_sinks_fail env.sinks i hi hpre hfail
  have hrun := run_demuxer_open_fail htag hid hfind (by rw [hopen])
  rw [hopen] at hrun
  have hevs : ((List.range i).map Event.openSink ++
      sc_demuxer_close_first_sinks i, false).1 ++ [Event.onEnded false] =
      openAllEvents i ++ sc_demuxer_close_first_sinks i ++
        [Event.onEnded false] := by
    simp [openAllEvents]
  rw [hevs] at hrun
  refine ⟨hrun, ?_⟩
  rw [hrun, RunResult.events]
  simp [pushedPackets_append, pushedPackets_openAll, pushedPackets_close_first,
    pushedPackets_onEnded]

/-- Witness for C4: second of two sinks fails open. -/
theorem open_fail_atomicity_witness :
    run_demuxer openFailEnv = .finished (openAllEvents 1 ++
      sc_demuxer_close_first_sinks 1 ++ [Event.onEnded false]) ∧
    pushedPackets (run_demuxer openFailEnv).events = [] := by
  refine open_fail_atomicity openFailEnv SC_CODEC_ID_H264 [] 
    { id := .H264, type := .VIDEO } 1 (by decide)
    (by simp [openFailEnv]) (by decide) (by decide) rfl ?_ ?_
  · intro j hj hji
    interval_cases j
    rfl
  · rfl

/-- C5: a (possibly merged) packet is pushed to the sinks in registration
order (indices 0,1,...); when every push succeeds all sinks receive it in
that order; if the push to sink `i` fails, the sinks after `i` never receive
that packet, the read loop terminates, and the session ends with
eos = false. -/
theorem push_ordering :
    (∀ (sinks : List Sink) (p : AVPacket), (∀ s ∈ sinks, s.pushOk p = true) →
      push_packet_to_sinks sinks p = (pushAllEvents sinks.length p, true)) ∧
    (∀ (env : DemuxerEnv) (raw : Nat) (rest : List Nat) (codec : AVCodec)
      (p q : AVPacket) (mg' : sc_packet_merger) (r : List Nat) (i : Nat)
      (hi : i < env.sinks.length),
      env.stream = natToBytesBE 4 raw ++ rest → raw < 2 ^ 32 →
      sc_demuxer_to_avcodec_id raw ≠ .NONE →
      env.findDecoder (sc_demuxer_to_avcodec_id raw) = some codec →
      (∀ s ∈ env.sinks, s.openOk = true) →
      env.packetAllocOk = true →
      sc_demuxer_recv_packet (env.payloadAllocs.headD true) rest = .ok p r →
      (if decide (codec.type = AVMediaType.VIDEO) then
        sc_packet_merger_merge sc_packet_merger_init p
      else (sc_packet_merger_init, p)) = (mg', q) →
      (∀ j (hj : j < env.sinks.length), j < i →
        (env.sinks.get ⟨j, hj⟩).pushOk q = true) →
      (env.sinks.get ⟨i, hi⟩).pushOk q = false →
      run_demuxer env = .finished (openAllEvents env.sinks.length ++
        (List.range (i+1)).map (fun j => Event.push j q) ++
        sc_demuxer_close_sinks env.sinks ++ [Event.onEnded false])) := by
  constructor
  · intro sinks p h
    exact push_all sinks p h
  · intro env raw rest codec p q mg' r i hi hstream hraw hid hfind hopen hpk
      hrecv hmerge hpre hfail
    have htag : sc_demuxer_recv_codec_id env.stream = some (raw, rest) := by
      rw [hstream]
      exact recv_codec_id_serialized raw rest hraw
    have hopen' := open_sinks_all env.sinks hopen
    have hpush := push_fail env.sinks q i hi hpre hfail
    have hloop : demuxer_loop env.sinks
        (decide (codec.type = AVMediaType.VIDEO)) sc_packet_merger_init rest
        env.payloadAllocs =
        .done ((List.range (i+1)).map (fun j => Event.push j q)) false := by
      rw [demuxer_loop_ok_eq hrecv hmerge, hpush]
      simp
    have hrun := run_demuxer_loop_done htag hid hfind (by rw [hopen']) hpk
      hloop
    rw [hopen'] at hrun
    rw [hrun]

/-- Witness for C5: a single media packet, two sinks, the second push
fails. -/
theorem push_ordering_witness :
    push_packet_to_sinks [oneGoodSink]
      { pts := some 7, dts := some 7, keyFrame := false, data := [9] } =
      (pushAllEvents 1
        { pts := some 7, dts := some 7, keyFrame := false, data := [9] },
        true) ∧
    run_demuxer pushFailEnv = .finished
      (openAllEvents pushFailEnv.sinks.length ++
        (List.range 2).map (fun j => Event.push j
          { pts := some 7, dts := some 7, keyFrame := false, data := [9] }) ++
        sc_demuxer_close_sinks pushFailEnv.sinks ++ [Event.onEnded false]) := by
  constructor
  · refine push_ordering.1 [oneGoodSink] _ ?_
    intro s hs
    have hss : s = oneGoodSink := by simpa using hs
    rw [hss]
    rfl
  · refine push_ordering.2 pushFailEnv SC_CODEC_ID_H264 (serializePacket 7 [9])
      { id := .H264, type := .VIDEO }
      { pts := some 7, dts := some 7, keyFrame := false, data := [9] }
      { pts := some 7, dts := some 7, keyFrame := false, data := [9] }
      sc_packet_merger_init [] 1 (by decide) rfl (by decide) (by decide) rfl
      (fun s hs => ?_) rfl (by decide) (by decide) (fun j hj hji => ?_)
      (by decide)
    · have hss : s = oneGoodSink ∨ s = failPushSink := by
        simpa [pushFailEnv] using hs
      rcases hss with hss | hss <;> rw [hss] <;> rfl
    · interval_cases j
      rfl

/-- C7 counterexample: in a session whose first payload-buffer allocation
fails (valid tag, one sink, media header with length 1), the completion
callback receives eos = true, not eos = false as the claim states:
`sc_demuxer_recv_packet` returns false on allocation failure and the read
loop of run_demuxer (lines 208-212) treats every receive failure as end of
stream. -/
theorem alloc_fail_eos_counterexample :
    endedFlags (run_demuxer allocFailEnv).events = [true] ∧
    ¬ endedFlags (run_demuxer allocFailEnv).events = [false] := by
  constructor <;> decide

/-- C7 (amended): a payload-buffer allocation failure terminates the session
(no retry): the loop ends at that packet, the sinks are torn down, and the
completion callback fires once — but with eos = true, the same flag as a
clean end-of-stream, because run_demuxer cannot distinguish the two causes
of a receive failure. -/
theorem alloc_fail_terminates (env : DemuxerEnv) (raw pf plen : Nat)
    (junk : List Nat) (atl : List Bool) (codec : AVCodec)
    (hstream : env.stream = natToBytesBE 4 raw ++
      (natToBytesBE 8 pf ++ natToBytesBE 4 plen ++ junk))
    (hraw : raw < 2 ^ 32)
    (hid : sc_demuxer_to_avcodec_id raw ≠ .NONE)
    (hfind : env.findDecoder (sc_demuxer_to_avcodec_id raw) = some codec)
    (hopen : ∀ s ∈ env.sinks, s.openOk = true)
    (hpk : env.packetAllocOk = true)
    (hallocs : env.payloadAllocs = false :: atl)
    (hlen : plen ≠ 0) (hlen2 : plen < 2 ^ 32) :
    run_demuxer env = .finished (openAllEvents env.sinks.length ++
      sc_demuxer_close_sinks env.sinks ++ [Event.onEnded true]) := by
  have htag : sc_demuxer_recv_codec_id env.stream =
      some (raw, natToBytesBE 8 pf ++ natToBytesBE 4 plen ++ junk) := by
    rw [hstream]
    exact recv_codec_id_serialized raw _ hraw
  have hopen' := open_sinks_all env.sinks hopen
  have hrecv : sc_demuxer_recv_packet (env.payloadAllocs.headD true)
      (natToBytesBE 8 pf ++ natToBytesBE 4 plen ++ junk) = .fail := by
    rw [hallocs]
    exact recv_packet_alloc_fail pf plen junk hlen hlen2
  have hloop := @demuxer_loop_fail_eq env.sinks
    (decide (codec.type = AVMediaType.VIDEO)) sc_packet_merger_init
    (natToBytesBE 8 pf ++ natToBytesBE 4 plen ++ junk) env.payloadAllocs hrecv
  have hrun := run_demuxer_loop_done htag hid hfind (by rw [hopen']) hpk hloop
  rw [hopen'] at hrun
  rw [hrun]
  simp

/-- Witness for the amended C7 on the concrete allocation-failure session. -/
theorem alloc_fail_terminates_witness :
    run_demuxer allocFailEnv = .finished
      (openAllEvents allocFailEnv.sinks.length ++
        sc_demuxer_close_sinks allocFailEnv.sinks ++ [Event.onEnded true]) := by
  refine alloc_fail_terminates allocFailEnv SC_CODEC_ID_H264 0 1 [7] []
    { id := .H264, type := .VIDEO } rfl (by decide) (by decide) rfl
    (fun s hs => ?_) rfl rfl (by decide) (by decide)
  have hss : s = oneGoodSink := by simpa [allocFailEnv] using hs
  rw [hss]
  rfl

/-- C8: in a session whose negotiated codec has audio media type the merger
is never applied: on the wire sequence config C1, config C2, media (M, T),
every config packet is pushed to the sinks individually, as-is, and the media
packet is pushed with its own payload M, never with the config payloads
concatenated in front. -/
theorem audio_bypass (env : DemuxerEnv) (raw t : Nat) (c1 c2 m : List Nat)
    (codec : AVCodec)
    (hstream : env.stream = natToBytesBE 4 raw ++
      (serializePacket SC_PACKET_FLAG_CONFIG c1 ++
        (serializePacket SC_PACKET_FLAG_CONFIG c2 ++ serializePacket t m)))
    (hraw : raw < 2 ^ 32)
    (hid : sc_demuxer_to_avcodec_id raw ≠ .NONE)
    (hfind : env.findDecoder (sc_demuxer_to_avcodec_id raw) = some codec)
    (htype : codec.type = AVMediaType.Audio)
    (hopen : ∀ s ∈ env.sinks, s.openOk = true)
    (hpush : ∀ s ∈ env.sinks, ∀ pk, s.pushOk pk = true)
    (hpk : env.packetAllocOk = true)
    (hallocs : env.payloadAllocs = [])
    (hc1 : c1 ≠ []) (hc1l : c1.length < 2 ^ 32)
    (hc2 : c2 ≠ []) (hc2l : c2.length < 2 ^ 32)
    (hm : m ≠ []) (hml : m.length < 2 ^ 32)
    (ht : t < 2 ^ 62) :
    run_demuxer env = .finished (openAllEvents env.sinks.length ++
      (pushAllEvents env.sinks.length
          { pts := none, dts := none, keyFrame := false, data := c1 } ++
        (pushAllEvents env.sinks.length
          { pts := none, dts := none, keyFrame := false, data := c2 } ++
         pushAllEvents env.sinks.length
          { pts := some t, dts := some t, keyFrame := false, data := m })) ++
      sc_demuxer_close_sinks env.sinks ++ [Event.onEnded true]) := by
  have htag : sc_demuxer_recv_codec_id env.stream = some (raw,
      serializePacket SC_PACKET_FLAG_CONFIG c1 ++
        (serializePacket SC_PACKET_FLAG_CONFIG c2 ++ serializePacket t m)) := by
    rw [hstream]
    exact recv_codec_id_serialized raw _ hraw
  have hopen' := open_sinks_all env.sinks hopen
  have hmm : decide (codec.type = AVMediaType.VIDEO) = false := by
    rw [htype]
    rfl
  have hrecv3 : sc_demuxer_recv_packet (List.headD [] true)
      (serializePacket t m) =
      .ok { pts := some t, dts := some t, keyFrame := false, data := m }
        [] := by
    simpa using recv_media_frame t m [] ht hm hml
  have hfail_nil : demuxer_loop env.sinks false sc_packet_merger_init []
      (List.tail ([] : List Bool)) = .done [] true :=
    @demuxer_loop_fail_eq env.sinks false sc_packet_merger_init []
      (List.tail ([] : List Bool)) (recv_packet_short (by simp))
  have step3 := @demuxer_loop_ok_eq env.sinks false sc_packet_merger_init
    sc_packet_merger_init (serializePacket t m) []
    { pts := some t, dts := some t, keyFrame := false, data := m }
    { pts := some t, dts := some t, keyFrame := false, data := m } []
    hrecv3 (merge_skip _ _)
  have h3 : demuxer_loop env.sinks false sc_packet_merger_init
      (serializePacket t m) [] =
      .done (pushAllEvents env.sinks.length
        { pts := some t, dts := some t, keyFrame := false, data := m })
        true := by
    rw [step3, push_all env.sinks _ (fun s hs => hpush s hs _), hfail_nil]
    simp
  have step2 := @demuxer_loop_ok_eq env.sinks false sc_packet_merger_init
    sc_packet_merger_init
    (serializePacket SC_PACKET_FLAG_CONFIG c2 ++ serializePacket t m) []
    { pts := none, dts := none, keyFrame := false, data := c2 }
    { pts := none, dts := none, keyFrame := false, data := c2 }
    (serializePacket t m)
    (recv_config_frame c2 (serializePacket t m) hc2 hc2l) (merge_skip _ _)
  have h2 : demuxer_loop env.sinks false sc_packet_merger_init
      (serializePacket SC_PACKET_FLAG_CONFIG c2 ++ serializePacket t m) [] =
      .done (pushAllEvents env.sinks.length
          { pts := none, dts := none, keyFrame := false, data := c2 } ++
        pushAllEvents env.sinks.length
          { pts := some t, dts := some t, keyFrame := false, data := m })
        true := by
    rw [step2, push_all env.sinks _ (fun s hs => hpush s hs _)]
    simp only [List.tail_nil]
    rw [h3]
    simp
  have step1 := @demuxer_loop_ok_eq env.sinks false sc_packet_merger_init
    sc_packet_merger_init
    (serializePacket SC_PACKET_FLAG_CONFIG c1 ++
      (serializePacket SC_PACKET_FLAG_CONFIG c2 ++ serializePacket t m)) []
    { pts := none, dts := none, keyFrame := false, data := c1 }
    { pts := none, dts := none, keyFrame := false, data := c1 }
    (serializePacket SC_PACKET_FLAG_CONFIG c2 ++ serializePacket t m)
    (recv_config_frame c1
      (serializePacket SC_PACKET_FLAG_CONFIG c2 ++ serializePacket t m)
      hc1 hc1l) (merge_skip _ _)
  have h1 : demuxer_loop env.sinks false sc_packet_merger_init
      (serializePacket SC_PACKET_FLAG_CONFIG c1 ++
        (serializePacket SC_PACKET_FLAG_CONFIG c2 ++ serializePacket t m))
      [] =
      .done (pushAllEvents env.sinks.length
          { pts := none, dts := none, keyFrame := false, data := c1 } ++
        (pushAllEvents env.sinks.length
          { pts := none, dts := none, keyFrame := false, data := c2 } ++
         pushAllEvents env.sinks.length
          { pts := some t, dts := some t, keyFrame := false, data := m }))
        true := by
    rw [step1, push_all env.sinks _ (fun s hs => hpush s hs _)]
    simp only [List.tail_nil]
    rw [h2]
    simp
  have hloop : demuxer_loop env.sinks
      (decide (codec.type = AVMediaType.VIDEO)) sc_packet_merger_init
      (serializePacket SC_PACKET_FLAG_CONFIG c1 ++
        (serializePacket SC_PACKET_FLAG_CONFIG c2 ++ serializePacket t m))
      env.payloadAllocs =
      .done (pushAllEvents env.sinks.length
          { pts := none, dts := none, keyFrame := false, data := c1 } ++
        (pushAllEvents env.sinks.length
          { pts := none, dts := none, keyFrame := false, data := c2 } ++
         pushAllEvents env.sinks.length
          { pts := some t, dts := some t, keyFrame := false, data := m }))
        true := by
    rw [hmm, hallocs]
    exact h1
  have hrun := run_demuxer_loop_done htag hid hfind (by rw [hopen']) hpk hloop
  rw [hopen'] at hrun
  rw [hrun]

/-- Witness for C8 on the concrete Opus session. -/
theorem audio_bypass_witness :
    run_demuxer audioSampleEnv = .finished
      (openAllEvents audioSampleEnv.sinks.length ++
        (pushAllEvents audioSampleEnv.sinks.length
            { pts := none, dts := none, keyFrame := false, data := [1] } ++
          (pushAllEvents audioSampleEnv.sinks.length
            { pts := none, dts := none, keyFrame := false, data := [2] } ++
           pushAllEvents audioSampleEnv.sinks.length
            { pts := some 5, dts := some 5, keyFrame := false, data := [3] })) ++
        sc_demuxer_close_sinks audioSampleEnv.sinks ++
        [Event.onEnded true]) := by
  refine audio_bypass audioSampleEnv SC_CODEC_ID_OPUS 5 [1] [2] [3]
    { id := .OPUS, type := .Audio } rfl (by decide) (by decide) rfl rfl
    (fun s hs => ?_) (fun s hs => ?_) rfl rfl (by decide) (by decide)
    (by decide) (by decide) (by decide) (by decide) (by decide)
  · have hss : s = oneGoodSink := by simpa [audioSampleEnv] using hs
    rw [hss]
    rfl
  · have hss : s = oneGoodSink := by simpa [audioSampleEnv] using hs
    rw [hss]
    intro pk
    rfl

/-- C1 counterexample: in a video session delivering config [1], config [2],
then media [3] at timestamp 5 to one always-accepting sink, three packets
reach the sink, not exactly one: run_demuxer (demuxer.c lines 215-229) pushes
every received packet after merging, so each config packet is pushed as-is in
addition to the merged media packet, and the claim that only one packet
reaches the sinks (and that nothing is pushed for a config packet at
end-of-stream) is false. -/
theorem merger_single_packet_counterexample :
    (pushedPackets (run_demuxer mergeSampleEnv).events).length = 3 ∧
    ¬ (pushedPackets (run_demuxer mergeSampleEnv).events).length = 1 := by
  constructor <;> decide

/-- C1 (amended): in a video session, for wire packets config C1, config C2,
then media (M, T): each config packet is also pushed to the sinks as-is when
it is received, and the media packet is pushed with payload C1 ++ C2 ++ M and
timestamp T — three pushes per sink in that order, the merge affecting only
the media packet.  A media packet arriving while the merger is idle passes
through with payload and timestamp unchanged.  A config packet followed by
end-of-stream is pushed as-is itself, and its buffered copy is never merged
into any packet (nothing else is pushed for it). -/
theorem merger_behaviour :
    (∀ (env : DemuxerEnv) (raw t : Nat) (c1 c2 m : List Nat) (codec : AVCodec),
      env.stream = natToBytesBE 4 raw ++
        (serializePacket SC_PACKET_FLAG_CONFIG c1 ++
          (serializePacket SC_PACKET_FLAG_CONFIG c2 ++ serializePacket t m)) →
      raw < 2 ^ 32 →
      sc_demuxer_to_avcodec_id raw ≠ .NONE →
      env.findDecoder (sc_demuxer_to_avcodec_id raw) = some codec →
      codec.type = AVMediaType.VIDEO →
      (∀ s ∈ env.sinks, s.openOk = true) →
      (∀ s ∈ env.sinks, ∀ pk, s.pushOk pk = true) →
      env.packetAllocOk = true → env.payloadAllocs = [] →
      c1 ≠ [] → c1.length < 2 ^ 32 → c2 ≠ [] → c2.length < 2 ^ 32 →
      m ≠ [] → m.length < 2 ^ 32 → t < 2 ^ 62 →
      run_demuxer env = .finished (openAllEvents env.sinks.length ++
        (pushAllEvents env.sinks.length
            { pts := none, dts := none, keyFrame := false, data := c1 } ++
          (pushAllEvents env.sinks.length
            { pts := none, dts := none, keyFrame := false, data := c2 } ++
           pushAllEvents env.sinks.length
            { pts := some t, dts := some t, keyFrame := false,
              data := c1 ++ c2 ++ m })) ++
        sc_demuxer_close_sinks env.sinks ++ [Event.onEnded true])) ∧
    (∀ (env : DemuxerEnv) (raw t : Nat) (m : List Nat) (codec : AVCodec),
      env.stream = natToBytesBE 4 raw ++ serializePacket t m →
      raw < 2 ^ 32 →
      sc_demuxer_to_avcodec_id raw ≠ .NONE →
      env.findDecoder (sc_demuxer_to_avcodec_id raw) = some codec →
      codec.type = AVMediaType.VIDEO →
      (∀ s ∈ env.sinks, s.openOk = true) →
      (∀ s ∈ env.sinks, ∀ pk, s.pushOk pk = true) →
      env.packetAllocOk = true → env.payloadAllocs = [] →
      m ≠ [] → m.length < 2 ^ 32 → t < 2 ^ 62 →
      run_demuxer env = .finished (openAllEvents env.sinks.length ++
        pushAllEvents env.sinks.length
          { pts := some t, dts := some t, keyFrame := false, data := m } ++
        sc_demuxer_close_sinks env.sinks ++ [Event.onEnded true])) ∧
    (∀ (env : DemuxerEnv) (raw : Nat) (c1 : List Nat) (codec : AVCodec),
      env.stream = natToBytesBE 4 raw ++
        serializePacket SC_PACKET_FLAG_CONFIG c1 →
      raw < 2 ^ 32 →
      sc_demuxer_to_avcodec_id raw ≠ .NONE →
      env.findDecoder (sc_demuxer_to_avcodec_id raw) = some codec →
      codec.type = AVMediaType.VIDEO →
      (∀ s ∈ env.sinks, s.openOk = true) →
      (∀ s ∈ env.sinks, ∀ pk, s.pushOk pk = true) →
      env.packetAllocOk = true → env.payloadAllocs = [] →
      c1 ≠ [] → c1.length < 2 ^ 32 →
      run_demuxer env = .finished (openAllEvents env.sinks.length ++
        pushAllEvents env.sinks.length
          { pts := none, dts := none, keyFrame := false, data := c1 } ++
        sc_demuxer_close_sinks env.sinks ++ [Event.onEnded true])) := by
  refine ⟨?_, ?_, ?_⟩
  · intro env raw t c1 c2 m codec hstream hraw hid hfind htype hopen hpush
      hpk hallocs hc1 hc1l hc2 hc2l hm hml ht
    have htag : sc_demuxer_recv_codec_id env.stream = some (raw,
        serializePacket SC_PACKET_FLAG_CONFIG c1 ++
          (serializePacket SC_PACKET_FLAG_CONFIG c2 ++
            serializePacket t m)) := by
      rw [hstream]
      exact recv_codec_id_serialized raw _ hraw
    have hopen' := open_sinks_all env.sinks hopen
    have hmm : decide (codec.type = AVMediaType.VIDEO) = true := by
      rw [htype]
      rfl
    have hrecv3 : sc_demuxer_recv_packet (List.headD [] true)
        (serializePacket t m) =
        .ok { pts := some t, dts := some t, keyFrame := false, data := m }
          [] := by
      simpa using recv_media_frame t m [] ht hm hml
    have hm3 : (if (true : Bool) then sc_packet_merger_merge
        { config := some (c1 ++ c2) }
        { pts := some t, dts := some t, keyFrame := false, data := m }
      else ({ config := some (c1 ++ c2) },
        { pts := some t, dts := some t, keyFrame := false, data := m })) =
        ({ config := none },
          { pts := some t, dts := some t, keyFrame := false,
            data := c1 ++ c2 ++ m }) := by
      simp [sc_packet_merger_merge]
    have hfail_nil : demuxer_loop env.sinks true { config := none } []
        (List.tail ([] : List Bool)) = .done [] true :=
      @demuxer_loop_fail_eq env.sinks true { config := none } []
        (List.tail ([] : List Bool)) (recv_packet_short (by simp))
    have step3 := @demuxer_loop_ok_eq env.sinks true
      { config := some (c1 ++ c2) } { config := none } (serializePacket t m)
      []
      { pts := some t, dts := some t, keyFrame := false, data := m }
      { pts := some t, dts := some t, keyFrame := false,
        data := c1 ++ c2 ++ m } []
      hrecv3 hm3
    have h3 : demuxer_loop env.sinks true { config := some (c1 ++ c2) }
        (serializePacket t m) [] =
        .done (pushAllEvents env.sinks.length
          { pts := some t, dts := some t, keyFrame := false,
            data := c1 ++ c2 ++ m }) true := by
      rw [step3, push_all env.sinks _ (fun s hs => hpush s hs _), hfail_nil]
      simp
    have hm2 : (if (true : Bool) then sc_packet_merger_merge
        { config := some c1 }
        { pts := none, dts := none, keyFrame := false, data := c2 }
      else ({ config := some c1 },
        { pts := none, dts := none, keyFrame := false, data := c2 })) =
        ({ config := some (c1 ++ c2) },
          { pts := none, dts := none, keyFrame := false, data := c2 }) := by
      simp [sc_packet_merger_merge]
    have step2 := @demuxer_loop_ok_eq env.sinks true { config := some c1 }
      { config := some (c1 ++ c2) }
      (serializePacket SC_PACKET_FLAG_CONFIG c2 ++ serializePacket t m) []
      { pts := none, dts := none, keyFrame := false, data := c2 }
      { pts := none, dts := none, keyFrame := false, data := c2 }
      (serializePacket t m)
      (recv_config_frame c2 (serializePacket t m) hc2 hc2l) hm2
    have h2 : demuxer_loop env.sinks true { config := some c1 }
        (serializePacket SC_PACKET_FLAG_CONFIG c2 ++ serializePacket t m)
        [] =
        .done (pushAllEvents env.sinks.length
            { pts := none, dts := none, keyFrame := false, data := c2 } ++
          pushAllEvents env.sinks.length
            { pts := some t, dts := some t, keyFrame := false,
              data := c1 ++ c2 ++ m }) true := by
      rw [step2, push_all env.sinks _ (fun s hs => hpush s hs _)]
      simp only [List.tail_nil]
      rw [h3]
      simp
    have hm1 : (if (true : Bool) then sc_packet_merger_merge
        sc_packet_merger_init
        { pts := none, dts := none, keyFrame := false, data := c1 }
      else (sc_packet_merger_init,
        { pts := none, dts := none, keyFrame := false, data := c1 })) =
        ({ config := some c1 },
          { pts := none, dts := none, keyFrame := false, data := c1 }) := by
      simp [sc_packet_merger_merge, sc_packet_merger_init]
    have step1 := @demuxer_loop_ok_eq env.sinks true sc_packet_merger_init
      { config := some c1 }
      (serializePacket SC_PACKET_FLAG_CONFIG c1 ++
        (serializePacket SC_PACKET_FLAG_CONFIG c2 ++ serializePacket t m))
      []
      { pts := none, dts := none, keyFrame := false, data := c1 }
      { pts := none, dts := none, keyFrame := false, data := c1 }
      (serializePacket SC_PACKET_FLAG_CONFIG c2 ++ serializePacket t m)
      (recv_config_frame c1
        (serializePacket SC_PACKET_FLAG_CONFIG c2 ++ serializePacket t m)
        hc1 hc1l) hm1
    have h1 : demuxer_loop env.sinks true sc_packet_merger_init
        (serializePacket SC_PACKET_FLAG_CONFIG c1 ++
          (serializePacket SC_PACKET_FLAG_CONFIG c2 ++ serializePacket t m))
        [] =
        .done (pushAllEvents env.sinks.length
            { pts := none, dts := none, keyFrame := false, data := c1 } ++
          (pushAllEvents env.sinks.length
            { pts := none, dts := none, keyFrame := false, data := c2 } ++
           pushAllEvents env.sinks.length
            { pts := some t, dts := some t, keyFrame := false,
              data := c1 ++ c2 ++ m })) true := by
      rw [step1, push_all env.sinks _ (fun s hs => hpush s hs _)]
      simp only [List.tail_nil]
      rw [h2]
      simp
    have hloop : demuxer_loop env.sinks
        (decide (codec.type = AVMediaType.VIDEO)) sc_packet_merger_init
        (serializePacket SC_PACKET_FLAG_CONFIG c1 ++
          (serializePacket SC_PACKET_FLAG_CONFIG c2 ++ serializePacket t m))
        env.payloadAllocs =
        .done (pushAllEvents env.sinks.length
            { pts := none, dts := none, keyFrame := false, data := c1 } ++
          (pushAllEvents env.sinks.length
            { pts := none, dts := none, keyFrame := false, data := c2 } ++
           pushAllEvents env.sinks.length
            { pts := some t, dts := some t, keyFrame := false,
              data := c1 ++ c2 ++ m })) true := by
      rw [hmm, hallocs]
      exact h1
    have hrun := run_demuxer_loop_done htag hid hfind (by rw [hopen']) hpk
      hloop
    rw [hopen'] at hrun
    rw [hrun]
  · intro env raw t m codec hstream hraw hid hfind htype hopen hpush hpk
      hallocs hm hml ht
    have htag : sc_demuxer_recv_codec_id env.stream =
        some (raw, serializePacket t m) := by
      rw [hstream]
      exact recv_codec_id_serialized raw _ hraw
    have hopen' := open_sinks_all env.sinks hopen
    have hmm : decide (codec.type = AVMediaType.VIDEO) = true := by
      rw [htype]
      rfl
    have hrecv1 : sc_demuxer_recv_packet (List.headD [] true)
        (serializePacket t m) =
        .ok { pts := some t, dts := some t, keyFrame := false, data := m }
          [] := by
      simpa using recv_media_frame t m [] ht hm hml
    have hm1 : (if (true : Bool) then sc_packet_merger_merge
        sc_packet_merger_init
        { pts := some t, dts := some t, keyFrame := false, data := m }
      else (sc_packet_merger_init,
        { pts := some t, dts := some t, keyFrame := false, data := m })) =
        (sc_packet_merger_init,
          { pts := some t, dts := some t, keyFrame := false, data := m }) := by
      simp [sc_packet_merger_merge, sc_packet_merger_init]
    have hfail_nil : demuxer_loop env.sinks true sc_packet_merger_init []
        (List.tail ([] : List Bool)) = .done [] true :=
      @demuxer_loop_fail_eq env.sinks true sc_packet_merger_init []
        (List.tail ([] : List Bool)) (recv_packet_short (by simp))
    have step1 := @demuxer_loop_ok_eq env.sinks true sc_packet_merger_init
      sc_packet_merger_init (serializePacket t m) []
      { pts := some t, dts := some t, keyFrame := false, data := m }
      { pts := some t, dts := some t, keyFrame := false, data := m } []
      hrecv1 hm1
    have h1 : demuxer_loop env.sinks true sc_packet_merger_init
        (serializePacket t m) [] =
        .done (pushAllEvents env.sinks.length
          { pts := some t, dts := some t, keyFrame := false, data := m })
          true := by
      rw [step1, push_all env.sinks _ (fun s hs => hpush s hs _), hfail_nil]
      simp
    have hloop : demuxer_loop env.sinks
        (decide (codec.type = AVMediaType.VIDEO)) sc_packet_merger_init
        (serializePacket t m) env.payloadAllocs =
        .done (pushAllEvents env.sinks.length
          { pts := some t, dts := some t, keyFrame := false, data := m })
          true := by
      rw [hmm, hallocs]
      exact h1
    have hrun := run_demuxer_loop_done htag hid hfind (by rw [hopen']) hpk
      hloop
    rw [hopen'] at hrun
    rw [hrun]
  · intro env raw c1 codec hstream hraw hid hfind htype hopen hpush hpk
      hallocs hc1 hc1l
    have htag : sc_demuxer_recv_codec_id env.stream =
        some (raw, serializePacket SC_PACKET_FLAG_CONFIG c1) := by
      rw [hstream]
      exact recv_codec_id_serialized raw _ hraw
    have hopen' := open_sinks_all env.sinks hopen
    have hmm : decide (codec.type = AVMediaType.VIDEO) = true := by
      rw [htype]
      rfl
    have hrecv1 : sc_demuxer_recv_packet (List.headD [] true)
        (serializePacket SC_PACKET_FLAG_CONFIG c1) =
        .ok { pts := none, dts := none, keyFrame := false, data := c1 }
          [] := by
      simpa using recv_config_frame c1 [] hc1 hc1l
    have hm1 : (if (true : Bool) then sc_packet_merger_merge
        sc_packet_merger_init
        { pts := none, dts := none, keyFrame := false, data := c1 }
      else (sc_packet_merger_init,
        { pts := none, dts := none, keyFrame := false, data := c1 })) =
        ({ config := some c1 },
          { pts := none, dts := none, keyFrame := false, data := c1 }) := by
      simp [sc_packet_merger_merge, sc_packet_merger_init]
    have hfail_nil : demuxer_loop env.sinks true { config := some c1 } []
        (List.tail ([] : List Bool)) = .done [] true :=
      @demuxer_loop_fail_eq env.sinks true { config := some c1 } []
        (List.tail ([] : List Bool)) (recv_packet_short (by simp))
    have step1 := @demuxer_loop_ok_eq env.sinks true sc_packet_merger_init
      { config := some c1 } (serializePacket SC_PACKET_FLAG_CONFIG c1) []
      { pts := none, dts := none, keyFrame := false, data := c1 }
      { pts := none, dts := none, keyFrame := false, data := c1 } []
      hrecv1 hm1
    have h1 : demuxer_loop env.sinks true sc_packet_merger_init
        (serializePacket SC_PACKET_FLAG_CONFIG c1) [] =
        .done (pushAllEvents env.sinks.length
          { pts := none, dts := none, keyFrame := false, data := c1 })
          true := by
      rw [step1, push_all env.sinks _ (fun s hs => hpush s hs _), hfail_nil]
      simp
    have hloop : demuxer_loop env.sinks
        (decide (codec.type = AVMediaType.VIDEO)) sc_packet_merger_init
        (serializePacket SC_PACKET_FLAG_CONFIG c1) env.payloadAllocs =
        .done (pushAllEvents env.sinks.length
          { pts := none, dts := none, keyFrame := false, data := c1 })
          true := by
      rw [hmm, hallocs]
      exact h1
    have hrun := run_demuxer_loop_done htag hid hfind (by rw [hopen']) hpk
      hloop
    rw [hopen'] at hrun
    rw [hrun]

/-- Witness for the amended C1 on three concrete video sessions. -/
theorem merger_behaviour_witness :
    run_demuxer mergeSampleEnv = .finished
      (openAllEvents mergeSampleEnv.sinks.length ++
        (pushAllEvents mergeSampleEnv.sinks.length
            { pts := none, dts := none, keyFrame := false, data := [1] } ++
          (pushAllEvents mergeSampleEnv.sinks.length
            { pts := none, dts := none, keyFrame := false, data := [2] } ++
           pushAllEvents mergeSampleEnv.sinks.length
            { pts := some 5, dts := some 5, keyFrame := false,
              data := [1] ++ [2] ++ [3] })) ++
        sc_demuxer_close_sinks mergeSampleEnv.sinks ++
        [Event.onEnded true]) ∧
    run_demuxer mediaOnlyEnv = .finished
      (openAllEvents mediaOnlyEnv.sinks.length ++
        pushAllEvents mediaOnlyEnv.sinks.length
          { pts := some 7, dts := some 7, keyFrame := false, data := [9] } ++
        sc_demuxer_close_sinks mediaOnlyEnv.sinks ++
        [Event.onEnded true]) ∧
    run_demuxer configOnlyEnv = .finished
      (openAllEvents configOnlyEnv.sinks.length ++
        pushAllEvents configOnlyEnv.sinks.length
          { pts := none, dts := none, keyFrame := false, data := [1] } ++
        sc_demuxer_close_sinks configOnlyEnv.sinks ++
        [Event.onEnded true]) := by
  refine ⟨merger_behaviour.1 mergeSampleEnv SC_CODEC_ID_H264 5 [1] [2] [3]
      { id := .H264, type := .VIDEO } rfl (by decide) (by decide) rfl rfl
      (fun s hs => ?_) (fun s hs => ?_) rfl rfl (by decide) (by decide)
      (by decide) (by decide) (by decide) (by decide) (by decide),
    merger_behaviour.2.1 mediaOnlyEnv SC_CODEC_ID_H264 7 [9]
      { id := .H264, type := .VIDEO } rfl (by decide) (by decide) rfl rfl
      (fun s hs => ?_) (fun s hs => ?_) rfl rfl (by decide) (by decide)
      (by decide),
    merger_behaviour.2.2 configOnlyEnv SC_CODEC_ID_H264 [1]
      { id := .H264, type := .VIDEO } rfl (by decide) (by decide) rfl rfl
      (fun s hs => ?_) (fun s hs => ?_) rfl rfl (by decide) (by decide)⟩
  · have hss : s = oneGoodSink := by simpa [mergeSampleEnv] using hs
    rw [hss]
    rfl
  · have hss : s = oneGoodSink := by simpa [mergeSampleEnv] using hs
    rw [hss]
    intro pk
    rfl
  · have hss : s = oneGoodSink := by simpa [mediaOnlyEnv] using hs
    rw [hss]
    rfl
  · have hss : s = oneGoodSink := by simpa [mediaOnlyEnv] using hs
    rw [hss]
    intro pk
    rfl
  · have hss : s = oneGoodSink := by simpa [configOnlyEnv] using hs
    rw [hss]
    rfl
  · have hss : s = oneGoodSink := by simpa [configOnlyEnv] using hs
    rw [hss]
    intro pk
    rfl

/-- Either every sink opens and the events are the full open pass, or some
count i of sinks opened before a failure and they were closed again. -/
theorem open_sinks_cases (sinks : List Sink) :
    sc_demuxer_open_sinks sinks = (openAllEvents sinks.length, true) ∨
    ∃ i, i ≤ sinks.length ∧ sc_demuxer_open_sinks sinks =
      (openAllEvents i ++ sc_demuxer_close_first_sinks i, false) := by
  rcases open_sinks_go_cases sinks 0 with hall | ⟨i, hle, heq⟩
  · left
    rw [sc_demuxer_open_sinks, hall, openAllEvents, List.range_eq_range']
  · right
    refine ⟨i, hle, ?_⟩
    rw [sc_demuxer_open_sinks, heq, openAllEvents, List.range_eq_range']
    simp

/-- C9: every session that terminates (rather than dying on a failed assert)
invokes the completion callback exactly once, as the final event; and the
close events are exactly the reverse of the open events — every sink that was
opened is closed, in reverse registration order, before the callback fires. -/
theorem callback_once_and_teardown (env : DemuxerEnv) (evs : List Event)
    (h : run_demuxer env = .finished evs) :
    (∃ eos, endedFlags evs = [eos] ∧
      evs.getLast? = some (Event.onEnded eos)) ∧
    closeIdxs evs = (openIdxs evs).reverse := by
  rw [run_demuxer] at h
  cases hcid : sc_demuxer_recv_codec_id env.stream with
  | none =>
    rw [hcid] at h
    injection h with h2
    subst h2
    refine ⟨⟨true, by simp [endedFlags_onEnded], by simp⟩, ?_⟩
    simp [closeIdxs_onEnded, openIdxs_onEnded, openIdxs, closeIdxs]
  | some pr =>
    obtain ⟨raw, rest⟩ := pr
    rw [hcid] at h
    dsimp only at h
    split at h
    · -- unknown codec id
      injection h with h2
      subst h2
      refine ⟨⟨false, by simp [endedFlags_onEnded], by simp⟩, ?_⟩
      simp [openIdxs, closeIdxs]
    · -- codec id known
      split at h
      · -- decoder not found
        injection h with h2
        subst h2
        refine ⟨⟨false, by simp [endedFlags_onEnded], by simp⟩, ?_⟩
        simp [openIdxs, closeIdxs]
      · -- decoder found
        rename_i codec hfind
        split at h
        · -- sink open failed
          rename_i hopenfail
          rcases open_sinks_cases env.sinks with hall | ⟨i, hle, hcase⟩
          · rw [hall] at hopenfail
            simp at hopenfail
          · rw [hcase] at h
            injection h with h2
            subst h2
            constructor
            · refine ⟨false, ?_, ?_⟩
              · simp [endedFlags_append, endedFlags_openAll,
                  endedFlags_close_first, endedFlags_onEnded]
              · simp
            · simp [closeIdxs_append, closeIdxs_openAll,
                closeIdxs_close_first, closeIdxs_onEnded, openIdxs_append,
                openIdxs_openAll, openIdxs_close_first, openIdxs_onEnded]
        · -- sinks all open
          rename_i hopenok
          have hall : sc_demuxer_open_sinks env.sinks =
              (openAllEvents env.sinks.length, true) := by
            rcases open_sinks_cases env.sinks with hall | ⟨i, hle, hcase⟩
            · exact hall
            · rw [hcase] at hopenok
              simp at hopenok
          rw [hall] at h
          split at h
          · -- av_packet_alloc failed
            injection h with h2
            subst h2
            constructor
            · refine ⟨false, ?_, ?_⟩
              · simp [endedFlags_append, endedFlags_openAll,
                  sc_demuxer_close_sinks, endedFlags_close_first,
                  endedFlags_onEnded]
              · simp
            · simp [closeIdxs_append, closeIdxs_openAll,
                sc_demuxer_close_sinks, closeIdxs_close_first,
                closeIdxs_onEnded, openIdxs_append, openIdxs_openAll,
                openIdxs_close_first, openIdxs_onEnded]
          · -- read loop ran
            split at h
            · -- loop finished with done
              rename_i loopEvs eos hloop
              injection h with h2
              subst h2
              obtain ⟨hl1, hl2, hl3⟩ :=
                demuxer_loop_events rest.length rest (le_refl _) env.sinks
                  (decide (codec.type = AVMediaType.VIDEO))
                  sc_packet_merger_init env.payloadAllocs
              rw [hloop] at hl1 hl2 hl3
              rw [LoopResult.events] at hl1 hl2 hl3
              constructor
              · refine ⟨eos, ?_, ?_⟩
                · simp [endedFlags_append, endedFlags_openAll,
                    sc_demuxer_close_sinks, endedFlags_close_first,
                    endedFlags_onEnded, hl3]
                · simp
              · simp [closeIdxs_append, closeIdxs_openAll,
                  sc_demuxer_close_sinks, closeIdxs_close_first,
                  closeIdxs_onEnded, openIdxs_append, openIdxs_openAll,
                  openIdxs_close_first, openIdxs_onEnded, hl1, hl2]
            · -- loop aborted: the run did not finish
              exact absurd h (by simp)

/-- Witness for C9 on the empty-stream session. -/
theorem callback_once_and_teardown_witness :
    ((∃ eos, endedFlags [Event.onEnded true] = [eos] ∧
      [Event.onEnded true].getLast? = some (Event.onEnded eos)) ∧
    closeIdxs [Event.onEnded true] =
      (openIdxs [Event.onEnded true]).reverse) :=
  callback_once_and_teardown emptyStreamEnv [Event.onEnded true] (by decide)
